import Mathlib

/-!
Verification development for the CDR-analyzer ingestion/analytics core
(`server/routes.ts`).  The TypeScript functions are shallowly embedded as
Lean definitions: JavaScript strings become `String`, integral
millisecond instants become `ℤ` (a JS `Date` stores an integer number of
milliseconds after `TimeClip`), fractional cell values and coordinates
become `ℚ`, and `NaN`/`null`/absent values become `Option`.  JS `Map`s
and `Set`s (which iterate in insertion order) become association lists
and duplicate-free lists grown at the tail.  The engine-dependent pieces
(`Date.parse` on free-form strings, `Date.now()`, `Math.random()`, and
local-time-zone `setHours`/`getFullYear`) are supplied through an
explicit environment record `JsEnv`, one per spreadsheet row, so that
every theorem can quantify over them.  JS `Array.prototype.sort` is
required by the language spec to be a stable sort; it is modelled by
`List.insertionSort`, which is stable and sorted, and for a consistent
comparator that determines the output uniquely.
-/

/-- Characters treated as whitespace by the JS `trim`/number parsing we model
(ASCII subset; the source data is ASCII). -/
def isWsChar (c : Char) : Bool :=
  c = ' ' ∨ c = '\t' ∨ c = '\n' ∨ c = '\r' ∨ c = '\x0B' ∨ c = '\x0C'

/-- Model of `String.prototype.trim` (drop whitespace at both ends), on char lists. -/
def trimL (l : List Char) : List Char :=
  ((l.dropWhile isWsChar).reverse.dropWhile isWsChar).reverse

/-- Model of `String.prototype.trim`. -/
def trimJS (s : String) : String := String.mk (trimL s.data)

/-- ASCII lower-casing of a character, modelling `toLowerCase` on the ASCII
data this system processes. -/
def asciiLower (ch : Char) : Char :=
  if 65 ≤ ch.toNat ∧ ch.toNat ≤ 90 then Char.ofNat (ch.toNat + 32) else ch

/-- Model of `String.prototype.toLowerCase` (ASCII). -/
def lowerJS (s : String) : String := String.mk (s.data.map asciiLower)

/-- Does `pat` occur as a leading block of `l`? (helper for substring search). -/
def strHasPfxL : List Char → List Char → Bool
  | _, [] => true
  | [], _ :: _ => false
  | a :: as, b :: bs => a = b && strHasPfxL as bs

/-- Does `pat` occur anywhere inside `l`? (helper for `String.prototype.includes`). -/
def strHasSubL (pat : List Char) : List Char → Bool
  | [] => strHasPfxL [] pat
  | c :: t => strHasPfxL (c :: t) pat || strHasSubL pat t

/-- Model of `s.includes(pat)` for JS strings. -/
def jsIncludes (s pat : String) : Bool := strHasSubL pat.data s.data

/-- Model of `String.prototype.split` with a single-character separator. -/
def splitOnCharAux (c : Char) : List Char → List Char → List (List Char)
  | [], acc => [acc.reverse]
  | x :: xs, acc =>
    if x = c then acc.reverse :: splitOnCharAux c xs []
    else splitOnCharAux c xs (x :: acc)

/-- Model of `s.split(c)` (JS never returns an empty array here). -/
def splitOnChar (c : Char) (s : String) : List String :=
  (splitOnCharAux c s.data []).map String.mk

/-- Numeric value of a decimal digit character. -/
def digitVal (c : Char) : ℕ := c.toNat - 48

/-- Consume a maximal run of decimal digits, returning the accumulated value,
the number of digits consumed and the rest of the input. -/
def takeDigitsAux : List Char → ℕ → ℕ → ℕ × ℕ × List Char
  | [], v, n => (v, n, [])
  | c :: cs, v, n =>
    if c.isDigit then takeDigitsAux cs (v * 10 + digitVal c) (n + 1)
    else (v, n, c :: cs)

/-- Sign prefix of a JS number literal: returns the sign and the rest. -/
def takeSignZ : List Char → ℤ × List Char
  | '-' :: r => (-1, r)
  | '+' :: r => (1, r)
  | l => (1, l)

/-- Exponent suffix (`e`/`E` with optional sign) of a JS float literal;
an exponent with no digits is not consumed (`parseFloat("1e") = 1`). -/
def takeExpZ : List Char → ℤ
  | c :: rest =>
    if c = 'e' ∨ c = 'E' then
      match rest with
      | '-' :: rr => (match takeDigitsAux rr 0 0 with
          | (ev, ne, _) => if ne = 0 then 0 else -(ev : ℤ))
      | '+' :: rr => (match takeDigitsAux rr 0 0 with
          | (ev, ne, _) => if ne = 0 then 0 else (ev : ℤ))
      | rr => (match takeDigitsAux rr 0 0 with
          | (ev, ne, _) => if ne = 0 then 0 else (ev : ℤ))
    else 0
  | [] => 0

/-- Model of JS `parseFloat`: longest valid decimal prefix after leading
whitespace; `none` models `NaN`.  (`Infinity` literals do not occur in this
data and are not modelled.) -/
def parseFloatQ (s : String) : Option ℚ :=
  let l := s.data.dropWhile isWsChar
  match takeSignZ l with
  | (sign, l1) =>
    match takeDigitsAux l1 0 0 with
    | (ip, ni, r1) =>
      match (match r1 with
             | '.' :: rf => takeDigitsAux rf 0 0
             | _ => (0, 0, r1)) with
      | (fp, nf, r2) =>
        if ni = 0 ∧ nf = 0 then none
        else
          let e := takeExpZ r2
          some (mkRat (sign * ((ip : ℤ) * 10 ^ nf + (fp : ℤ)) *
              (if 0 ≤ e then 10 ^ e.toNat else 1))
            (10 ^ nf * (if 0 ≤ e then 1 else 10 ^ (-e).toNat)))

/-- Model of JS `parseInt(s, 10)`: optional sign then a digit run; `none`
models `NaN`. -/
def parseIntZ (s : String) : Option ℤ :=
  let l := s.data.dropWhile isWsChar
  match takeSignZ l with
  | (sign, l1) =>
    match takeDigitsAux l1 0 0 with
    | (v, n, _) => if n = 0 then none else some (sign * (v : ℤ))

/-- JS `x || d` for an optional string cell (absent, `null` and `""` are falsy). -/
def jsOrStr (v : Option String) (d : String) : String :=
  match v with
  | some s => if s = "" then d else s
  | none => d

/-- JS `a || b` for two strings (empty string is falsy). -/
def jsOrStr2 (a b : String) : String := if a = "" then b else a

/-- A raw spreadsheet cell: JS string or number (absence is `Option` at use sites). -/
inductive Cell
  | str (s : String)
  | num (q : ℚ)
deriving DecidableEq

/-- JS truthiness of a cell (`""`, `0` are falsy). -/
def cellTruthy : Option Cell → Bool
  | some (Cell.str s) => s ≠ ""
  | some (Cell.num q) => q ≠ 0
  | none => false

/-- JS `Map` update pattern `if (!m.has(k)) m.set(k, d); f(m.get(k))`:
modify in place if the key exists, otherwise append at the tail
(JS maps iterate in insertion order). -/
def mapBump {β : Type} (f : β → β) (d : β) (k : String) : List (String × β) → List (String × β)
  | [] => [(k, f d)]
  | (k1, v) :: rest =>
    if k1 = k then (k1, f v) :: rest else (k1, v) :: mapBump f d k rest

/-- JS `Set.prototype.add`: keep first occurrence, append new values. -/
def setAdd (l : List String) (x : String) : List String :=
  if l.contains x then l else l ++ [x]

/-- Truncation toward zero, as JS `TimeClip` applies to a `Date` time value. -/
def jsTrunc (q : ℚ) : ℤ := if 0 ≤ q then ⌊q⌋ else -⌊-q⌋

/-- Model of `new Date(q)` for a numeric argument: `TimeClip` gives an integer
millisecond value, or an Invalid Date (`none`) outside ±8.64e15 ms. -/
def newDateFromQ (q : ℚ) : Option ℤ :=
  if |q| ≤ 8640000000000000 then some (jsTrunc q) else none

/-- Model of `new Date(z)` for an already integral millisecond value. -/
def newDateFromZ (z : ℤ) : Option ℤ :=
  if |z| ≤ 8640000000000000 then some z else none

/-- Civil date (year, month, day) of a day count relative to 1970-01-01,
following the standard era-based conversion used by proleptic-Gregorian
libraries; `/` on `ℤ` is floor division for the positive divisors used here. -/
def civilFromDays (z : ℤ) : ℤ × ℕ × ℕ :=
  let z2 := z + 719468
  let era : ℤ := z2 / 146097
  let doe : ℕ := (z2 - era * 146097).toNat
  let yoe : ℕ := (doe - doe / 1460 + doe / 36524 - doe / 146096) / 365
  let doy : ℕ := doe - (365 * yoe + yoe / 4 - yoe / 100)
  let mp : ℕ := (5 * doy + 2) / 153
  let d : ℕ := doy - (153 * mp + 2) / 5 + 1
  let m : ℕ := if mp < 10 then mp + 3 else mp - 9
  (if m ≤ 2 then era * 400 + yoe + 1 else era * 400 + yoe, m, d)

/-- Day count relative to 1970-01-01 of a civil date (inverse of
`civilFromDays`). -/
def daysFromCivil (y : ℤ) (m d : ℕ) : ℤ :=
  let y2 : ℤ := if m ≤ 2 then y - 1 else y
  let era : ℤ := y2 / 400
  let yoe : ℕ := (y2 - era * 400).toNat
  let mp : ℕ := if m > 2 then m - 3 else m + 9
  let doy : ℕ := (153 * mp + 2) / 5 + d - 1
  let doe : ℕ := yoe * 365 + yoe / 4 - yoe / 100 + doy
  era * 146097 + (doe : ℤ) - 719468

/-- Zero-padded two-digit decimal rendering. -/
def pad2 (n : ℕ) : String := if n < 10 then "0" ++ toString n else toString n

/-- Zero-padded three-digit decimal rendering. -/
def pad3 (n : ℕ) : String :=
  if n < 10 then "00" ++ toString n
  else if n < 100 then "0" ++ toString n else toString n

/-- Zero-padded four-digit year rendering (years 0–9999; the expanded-year
forms JS uses outside that range do not occur in this data). -/
def pad4Z (y : ℤ) : String :=
  if y < 0 then "-" ++ toString (-y)
  else if y < 10 then "000" ++ toString y
  else if y < 100 then "00" ++ toString y
  else if y < 1000 then "0" ++ toString y
  else toString y

/-- The `YYYY-MM-DD` rendering of a UTC day count. -/
def isoDateOfDay (day : ℤ) : String :=
  match civilFromDays day with
  | (y, m, d) => pad4Z y ++ "-" ++ pad2 m ++ "-" ++ pad2 d

/-- Model of `new Date(z).toISOString().split('T')[0]` — the UTC calendar
date of a millisecond instant. -/
def isoDateOfMs (z : ℤ) : String := isoDateOfDay (z / 86400000)

/-- Model of `Date.prototype.toISOString` on an integral millisecond instant. -/
def toISOStringJS (z : ℤ) : String :=
  let rem : ℕ := (z % 86400000).toNat
  isoDateOfMs z ++ "T" ++ pad2 (rem / 3600000) ++ ":" ++ pad2 (rem % 3600000 / 60000) ++
    ":" ++ pad2 (rem % 60000 / 1000) ++ "." ++ pad3 (rem % 1000) ++ "Z"

/-- Digit run to a natural number (used for re-reading the `YYYY-MM-DD`
strings this model itself produces). -/
def strToNatL (l : List Char) : ℕ := l.foldl (fun a c => a * 10 + digitVal c) 0

/-- Model of `new Date(s).getTime()` for the `YYYY-MM-DD` keys produced by
`isoDateOfMs` (parsed by JS as UTC midnight). -/
def parseIsoDayMs (s : String) : ℤ :=
  match splitOnChar '-' s.data.asString with
  | [ys, ms, ds] => daysFromCivil (strToNatL ys.data) (strToNatL ms.data) (strToNatL ds.data) * 86400000
  | _ => 0

/-- A spreadsheet row after column normalization, projected to the canonical
vocabulary the parser reads.  Text cells are `Option String` (the source
immediately applies `String(...)`); the `Date And Time` and `Date` cells keep
the string/number distinction because the source branches on `typeof`. -/
structure CanonicalRow where
  aParty : Option String := none
  bParty : Option String := none
  imei : Option String := none
  callType : Option String := none
  duration : Option String := none
  dateAndTime : Option Cell := none
  date : Option Cell := none
  time : Option String := none
  siteLocation : Option String := none
  latitude : Option String := none
  longitude : Option String := none
deriving DecidableEq

/-- The canonical CDR record produced by `parseExcelToCDR` (`InsertCDRRecord`).
`duration` is `none` when `parseInt` produced `NaN`; `timestamp` is integral
milliseconds since the epoch. -/
structure CDRRecord where
  callerNumber : String
  calledNumber : String
  imei : String
  callType : String
  duration : Option ℤ
  timestamp : ℤ
  location : String
  latitude : Option ℚ
  longitude : Option ℚ
  uploadId : String
deriving DecidableEq

/-- The engine/environment-dependent inputs of one row parse: `Date.parse` on
free-form strings, the local-time `getFullYear` and `setHours`, `Date.now()`,
and the `Math.random()` draws of the three fallback sites. -/
structure JsEnv where
  parseDate : String → Option ℤ
  fullYear : ℤ → ℤ
  nowMs : ℤ
  randHours1 : ℕ
  randMinutes1 : ℕ
  randSeconds1 : ℕ
  randOffsetMs : ℤ
  randHours2 : ℕ
  randMinutes2 : ℕ
  randSeconds2 : ℕ
  setHoursLocal : ℤ → ℕ → ℕ → ℕ → ℤ

/-- Replace every slash or dash separator by `to` (the global
slash-or-dash `replace` rewrites of the parser). -/
def replaceSeps (sep : Char) (s : String) : String :=
  String.mk (s.data.map (fun c => if c = '/' ∨ c = '-' then sep else c))

/-- Separator character class (dash or slash) of the date-format regexes. -/
def isSepChar (c : Char) : Bool := c = '-' ∨ c = '/'

/-- First-position match of the day-month-4-digit-year regex (two digits,
separator, two digits, separator, four digits), returning the year-month-day
replacement and the rest. -/
def matchDMY4 : List Char → Option (List Char × List Char)
  | d1 :: d2 :: s1 :: m1 :: m2 :: s2 :: y1 :: y2 :: y3 :: y4 :: rest =>
    if d1.isDigit ∧ d2.isDigit ∧ isSepChar s1 ∧ m1.isDigit ∧ m2.isDigit ∧ isSepChar s2 ∧
        y1.isDigit ∧ y2.isDigit ∧ y3.isDigit ∧ y4.isDigit then
      some ([y1, y2, y3, y4, '-', m1, m2, '-', d1, d2], rest)
    else none
  | _ => none

/-- First-position match of the day-month-2-digit-year regex, returning the
century-expanded year-month-day replacement and the rest. -/
def matchDMY2 : List Char → Option (List Char × List Char)
  | d1 :: d2 :: s1 :: m1 :: m2 :: s2 :: y1 :: y2 :: rest =>
    if d1.isDigit ∧ d2.isDigit ∧ isSepChar s1 ∧ m1.isDigit ∧ m2.isDigit ∧ isSepChar s2 ∧
        y1.isDigit ∧ y2.isDigit then
      some (['2', '0', y1, y2, '-', m1, m2, '-', d1, d2], rest)
    else none
  | _ => none

/-- Replace the earliest match of `m` (a JS `String.replace` with a non-global
regex). -/
def replaceFirstL (m : List Char → Option (List Char × List Char)) : List Char → List Char
  | [] => []
  | c :: t =>
    match m (c :: t) with
    | some (rep, rest) => rep ++ rest
    | none => c :: replaceFirstL m t

/-- The four rewritten candidate strings the parser tries for a text date
(lines 237–242 of `routes.ts`). -/
def dateFormats (s : String) : List String :=
  [replaceSeps '-' s, replaceSeps '/' s,
    String.mk (replaceFirstL matchDMY4 s.data), String.mk (replaceFirstL matchDMY2 s.data)]

/-- The `for (const format of dateFormats)` loop: first candidate that parses
to a valid date with `2010 < year ≤ 2024` wins. -/
def pickFormat (env : JsEnv) : List String → Option ℤ
  | [] => none
  | f :: rest =>
    match env.parseDate f with
    | some t =>
      if env.fullYear t > 2010 ∧ env.fullYear t ≤ 2024 then some t else pickFormat env rest
    | none => pickFormat env rest

/-- The text branch of timestamp resolution: direct parse if plausible, else
the rewritten formats; `none` means no candidate matched (the caller then
keeps the initial `new Date()`). -/
def parseStringDate (env : JsEnv) (s : String) : Option ℤ :=
  match env.parseDate s with
  | some t => if env.fullYear t > 2010 then some t else pickFormat env (dateFormats s)
  | none => pickFormat env (dateFormats s)

/-- The numeric (Excel serial) branch: `new Date((n - 25569) * 86400 * 1000)`,
then 5 hours subtracted from its time value; `none` is an Invalid Date. -/
def serialBranchTs (n : ℚ) : Option ℤ :=
  match newDateFromQ ((n - 25569) * 86400000) with
  | some u => newDateFromZ (u - 18000000)
  | none => none

/-- JS truthiness of an optional string. -/
def optStrTruthy : Option String → Bool
  | some s => s ≠ ""
  | none => false

/-- The `toISOString().split('T')[0]` of a numeric `Date` cell in the
separate-Date branch (for an out-of-range serial the source throws inside
`toISOString`; no claim exercises that case and the formatted unclipped value
stands in for the raised exception). -/
def isoDateOfSerial (n : ℚ) : String := isoDateOfMs (jsTrunc ((n - 25569) * 86400000))

/-- The `String(dateField).split('T')[0]` of a text `Date` cell. -/
def datePartOfString (s : String) : String := (splitOnChar 'T' s).getD 0 ""

/-- Timestamp resolution before the final invalid-date repair (lines 224–283):
the running `timestamp` variable as an optional instant, `none` standing for
an Invalid Date. -/
def timestampBeforeRepair (env : JsEnv) (row : CanonicalRow) : Option ℤ :=
  if cellTruthy row.dateAndTime then
    match row.dateAndTime with
    | some (Cell.str s) =>
      match parseStringDate env s with
      | some t => some t
      | none => some env.nowMs
    | some (Cell.num n) => serialBranchTs n
    | none => some env.nowMs
  else if cellTruthy row.date ∧ optStrTruthy row.time then
    match row.date, row.time with
    | some c, some timeStr =>
      let dateStr := match c with
        | Cell.num n => isoDateOfSerial n
        | Cell.str s => datePartOfString s
      env.parseDate (dateStr ++ " " ++ timeStr)
    | _, _ => some env.nowMs
  else if cellTruthy row.date then
    match row.date with
    | some (Cell.num n) =>
      match newDateFromQ ((n - 25569) * 86400000) with
      | some v => some (env.setHoursLocal v env.randHours1 env.randMinutes1 env.randSeconds1)
      | none => none
    | some (Cell.str s) =>
      match env.parseDate s with
      | some v => some (env.setHoursLocal v env.randHours1 env.randMinutes1 env.randSeconds1)
      | none => none
    | none => some env.nowMs
  else
    some (env.nowMs - env.randOffsetMs)

/-- Full timestamp resolution including the invalid-date repair
(lines 286–292): an Invalid Date is replaced by `new Date()` with a fresh
random time of day. -/
def resolveTimestamp (env : JsEnv) (row : CanonicalRow) : ℤ :=
  match timestampBeforeRepair env row with
  | some t => t
  | none => env.setHoursLocal env.nowMs env.randHours2 env.randMinutes2 env.randSeconds2

/-- Call-type normalization (lines 324–373): lower-cased, trimmed, then the
if/else chain in source order. -/
def normalizeCallType (raw : String) : String :=
  let t := trimJS (lowerJS raw)
  if jsIncludes t "sms" ∨ jsIncludes t "message" then
    if jsIncludes t "outgoing" ∨ jsIncludes t "sent" ∨ jsIncludes t "out" then "sms_sent"
    else if jsIncludes t "incoming" ∨ jsIncludes t "received" ∨ jsIncludes t "in" then
      "sms_received"
    else "sms_received"
  else if jsIncludes t "outgoing" ∨ jsIncludes t "sent" then "call_outgoing"
  else if jsIncludes t "incoming" ∨ jsIncludes t "received" then "call_incoming"
  else if t = "incoming" ∨ t = "inc" then "call_incoming"
  else if t = "outgoing" ∨ t = "out" then "call_outgoing"
  else if jsIncludes t "out" ∧ ¬ jsIncludes t "outgoing" = true then "call_outgoing"
  else if jsIncludes t "in" ∧ ¬ jsIncludes t "incoming" = true then "call_incoming"
  else if jsIncludes t "voice" ∨ jsIncludes t "call" ∨ t = "mo" ∨ t = "mt" then
    if t = "mt" ∨ jsIncludes t "terminated" then "call_incoming"
    else if t = "mo" ∨ jsIncludes t "originated" then "call_outgoing"
    else "call_outgoing"
  else "call_outgoing"

/-- Location decomposition (lines 295–322): split `SiteLocation` on `|`; with
three or more segments the first is the name and the next two the
coordinates (`NaN` → `null`); otherwise the whole value is the name.  If a
coordinate is still `null`, fall back to `parseFloat(row['Latitude'] || '0')`
and likewise for longitude, overwriting both when both parse (an absent or
empty field reads as the string `'0'`). -/
def parseLocCore (siteLocation : String) (latField lngField : Option String) :
    String × Option ℚ × Option ℚ :=
  let base :=
    if siteLocation ≠ "" then
      let parts := splitOnChar '|' siteLocation
      if parts.length ≥ 3 then
        (trimJS (parts.getD 0 ""), parseFloatQ (parts.getD 1 ""), parseFloatQ (parts.getD 2 ""))
      else (trimJS siteLocation, (none : Option ℚ), (none : Option ℚ))
    else ("", none, none)
  match base with
  | (loc, lat0, lng0) =>
    if lat0 = none ∨ lng0 = none then
      match parseFloatQ (jsOrStr latField "0"), parseFloatQ (jsOrStr lngField "0") with
      | some la, some lo => (loc, some la, some lo)
      | some _, none => (loc, lat0, lng0)
      | none, _ => (loc, lat0, lng0)
    else (loc, lat0, lng0)

/-- Location decomposition applied to a row's canonical fields. -/
def parseLocation (row : CanonicalRow) : String × Option ℚ × Option ℚ :=
  parseLocCore (jsOrStr row.siteLocation "") row.latitude row.longitude

/-- One row of the `data.map` body of `parseExcelToCDR` (lines 215–386). -/
def parseRow (env : JsEnv) (uploadId : String) (row : CanonicalRow) : CDRRecord :=
  { callerNumber := trimJS (jsOrStr row.aParty "")
    calledNumber := trimJS (jsOrStr row.bParty "")
    imei := trimJS (jsOrStr row.imei "")
    callType := normalizeCallType (jsOrStr row.callType "call")
    duration := parseIntZ (jsOrStr row.duration "0")
    timestamp := resolveTimestamp env row
    location := (parseLocation row).1
    latitude := (parseLocation row).2.1
    longitude := (parseLocation row).2.2
    uploadId := uploadId }

/-- The row-mapping stage of `parseExcelToCDR`: map every normalized row to a
record, then drop records whose trimmed caller number is empty
(`.filter(record => record.callerNumber)`, line 387).  Workbook decoding is
the external `xlsx` library and each row's environment draws are indexed by
row position. -/
def parseExcelToCDR (envs : ℕ → JsEnv) (uploadId : String) (rows : List CanonicalRow) :
    List CDRRecord :=
  ((rows.enum.map (fun p => parseRow (envs p.1) uploadId p.2)).filter
    (fun r => r.callerNumber ≠ ""))

/-- JS truncating (toward-zero) integer division, for positive divisors. -/
def jsTruncDivZ (a n : ℤ) : ℤ := if 0 ≤ a then a / n else -(-a / n)

/-- JS `%` on integral values (remainder with the dividend's sign). -/
def jsRemZ (a n : ℤ) : ℤ := a - n * jsTruncDivZ a n

/-- Rendering of a duration (lines 1093–1100): hours and minutes, or just
minutes below one hour. -/
def formatDuration (seconds : ℤ) : String :=
  let hours := seconds / 3600
  let minutes := jsRemZ seconds 3600 / 60
  if hours > 0 then toString hours ++ "h " ++ toString minutes ++ "m"
  else toString minutes ++ "m"

/-- A ranking entry before rank assignment (`number`, `value`,
`displayValue`). -/
structure RankEntry0 where
  number : String
  value : ℤ
  displayValue : String
deriving DecidableEq

/-- A ranking entry after rank assignment (`TopNumbersResult`). -/
structure RankEntry where
  number : String
  value : ℤ
  displayValue : String
  rank : ℕ
deriving DecidableEq

/-- The descending comparator `(a, b) => b.value - a.value` as the relation
"a may precede b". -/
def entryDescLE (a b : RankEntry0) : Prop := b.value ≤ a.value

instance : DecidableRel entryDescLE :=
  fun a b => inferInstanceAs (Decidable (b.value ≤ a.value))

instance : IsTotal RankEntry0 entryDescLE := ⟨fun a b => le_total b.value a.value⟩

instance : IsTrans RankEntry0 entryDescLE := ⟨fun _ _ _ h1 h2 => le_trans h2 h1⟩

/-- The stable descending sort `.sort((a, b) => b.value - a.value)`. -/
def sortDescValue (l : List RankEntry0) : List RankEntry0 :=
  List.insertionSort entryDescLE l

/-- The `.map((item, index) => ({...item, rank: index + 1}))` step. -/
def rankify (l : List RankEntry0) : List RankEntry :=
  l.enum.map (fun p =>
    { number := p.2.number, value := p.2.value, displayValue := p.2.displayValue,
      rank := p.1 + 1 })

/-- Per-counterpart call statistics of the four per-type analyzers. -/
structure CallStats where
  calls : ℕ
  duration : ℤ
deriving DecidableEq

/-- The accumulation loop of `analyzeOutgoingCalls` (lines 390–407). -/
def outgoingCallsStats (records : List CDRRecord) : List (String × CallStats) :=
  records.foldl (fun m r =>
    if r.callType ≠ "call_outgoing" ∨ r.calledNumber = "" then m
    else mapBump (fun s => { calls := s.calls + 1, duration := s.duration + r.duration.getD 0 })
      { calls := 0, duration := 0 } r.calledNumber m) []

/-- The unranked entry list of `analyzeOutgoingCalls` (lines 409–413). -/
def outgoingCallEntries (records : List CDRRecord) : List RankEntry0 :=
  (outgoingCallsStats records).map (fun p =>
    { number := p.1, value := (p.2.calls : ℤ), displayValue := toString p.2.calls })

/-- Outgoing-call ranking per called number (lines 390–418). -/
def analyzeOutgoingCalls (records : List CDRRecord) : List RankEntry :=
  rankify (sortDescValue (outgoingCallEntries records))

/-- The accumulation loop of `analyzeIncomingCalls` (lines 420–436). -/
def incomingCallsStats (records : List CDRRecord) : List (String × CallStats) :=
  records.foldl (fun m r =>
    if r.callType ≠ "call_incoming" ∨ r.calledNumber = "" then m
    else mapBump (fun s => { calls := s.calls + 1, duration := s.duration + r.duration.getD 0 })
      { calls := 0, duration := 0 } r.calledNumber m) []

/-- The unranked entry list of `analyzeIncomingCalls`. -/
def incomingCallEntries (records : List CDRRecord) : List RankEntry0 :=
  (incomingCallsStats records).map (fun p =>
    { number := p.1, value := (p.2.calls : ℤ), displayValue := toString p.2.calls })

/-- Incoming-call ranking per called number (lines 420–448). -/
def analyzeIncomingCalls (records : List CDRRecord) : List RankEntry :=
  rankify (sortDescValue (incomingCallEntries records))

/-- The accumulation loop of `analyzeOutgoingSMS` (lines 450–465). -/
def outgoingSMSStats (records : List CDRRecord) : List (String × ℕ) :=
  records.foldl (fun m r =>
    if r.callType ≠ "sms_sent" ∨ r.calledNumber = "" then m
    else mapBump (· + 1) 0 r.calledNumber m) []

/-- The unranked entry list of `analyzeOutgoingSMS`. -/
def outgoingSMSEntries (records : List CDRRecord) : List RankEntry0 :=
  (outgoingSMSStats records).map (fun p =>
    { number := p.1, value := (p.2 : ℤ), displayValue := toString p.2 })

/-- Outgoing-SMS ranking per called number (lines 450–476). -/
def analyzeOutgoingSMS (records : List CDRRecord) : List RankEntry :=
  rankify (sortDescValue (outgoingSMSEntries records))

/-- The accumulation loop of `analyzeIncomingSMS` (lines 478–493). -/
def incomingSMSStats (records : List CDRRecord) : List (String × ℕ) :=
  records.foldl (fun m r =>
    if r.callType ≠ "sms_received" ∨ r.calledNumber = "" then m
    else mapBump (· + 1) 0 r.calledNumber m) []

/-- The unranked entry list of `analyzeIncomingSMS`. -/
def incomingSMSEntries (records : List CDRRecord) : List RankEntry0 :=
  (incomingSMSStats records).map (fun p =>
    { number := p.1, value := (p.2 : ℤ), displayValue := toString p.2 })

/-- Incoming-SMS ranking per called number (lines 478–504). -/
def analyzeIncomingSMS (records : List CDRRecord) : List RankEntry :=
  rankify (sortDescValue (incomingSMSEntries records))

/-- The selector argument of `analyzeTopNumbers`. -/
inductive TopType
  | calls
  | duration
  | smsSent
  | smsReceived
deriving DecidableEq

/-- Per-number statistics of `analyzeTopNumbers`. -/
structure TopStats where
  calls : ℕ
  duration : ℤ
  smsSent : ℕ
  smsReceived : ℕ
deriving DecidableEq

/-- The zero statistics a fresh key starts from. -/
def topStatsInit : TopStats := ⟨0, 0, 0, 0⟩

/-- One iteration of the `records.forEach` of `analyzeTopNumbers`
(lines 509–528): the target is the called number when truthy, else the
caller; a call bumps `calls`/`duration`; an `sms_sent` record bumps the
target's `smsReceived` (the B-Party receives what the A-Party sends) and an
`sms_received` record bumps the target's `smsSent`; any other type still
inserts the key with zero statistics. -/
def topNumbersStep (m : List (String × TopStats)) (r : CDRRecord) : List (String × TopStats) :=
  let targetNumber := jsOrStr2 r.calledNumber r.callerNumber
  if targetNumber = "" then m
  else if r.callType = "call_incoming" ∨ r.callType = "call_outgoing" then
    mapBump (fun s => { s with calls := s.calls + 1, duration := s.duration + r.duration.getD 0 })
      topStatsInit targetNumber m
  else if r.callType = "sms_sent" then
    mapBump (fun s => { s with smsReceived := s.smsReceived + 1 }) topStatsInit targetNumber m
  else if r.callType = "sms_received" then
    mapBump (fun s => { s with smsSent := s.smsSent + 1 }) topStatsInit targetNumber m
  else mapBump id topStatsInit targetNumber m

/-- The whole accumulation map of `analyzeTopNumbers`. -/
def topNumbersStats (records : List CDRRecord) : List (String × TopStats) :=
  records.foldl topNumbersStep []

/-- The ranked value a `TopType` selects. -/
def topValue (ty : TopType) (s : TopStats) : ℤ :=
  match ty with
  | .calls => s.calls
  | .duration => s.duration
  | .smsSent => s.smsSent
  | .smsReceived => s.smsReceived

/-- The display string a `TopType` selects. -/
def topDisplay (ty : TopType) (s : TopStats) : String :=
  match ty with
  | .calls => toString s.calls
  | .duration => formatDuration s.duration
  | .smsSent => toString s.smsSent
  | .smsReceived => toString s.smsReceived

/-- The unranked entry list of `analyzeTopNumbers` (lines 530–554). -/
def topEntries (records : List CDRRecord) (ty : TopType) : List RankEntry0 :=
  (topNumbersStats records).map (fun p =>
    { number := p.1, value := topValue ty p.2, displayValue := topDisplay ty p.2 })

/-- Combined top-N ranking (lines 506–560): accumulate, sort descending,
truncate to 200, assign ranks. -/
def analyzeTopNumbers (records : List CDRRecord) (ty : TopType) : List RankEntry :=
  rankify ((sortDescValue (topEntries records ty)).take 200)

/-- A raw spreadsheet row as decoded by `sheet_to_json`: an insertion-ordered
object, keys unique. -/
abbrev RawRow : Type := List (String × Cell)

/-- The exact-name lookup table of `normalizeColumnNames` (lines 142–157). -/
def exactMapping : String → Option String
  | "A-Party" => some "A-Party"
  | "B-Party" => some "B-Party"
  | "Call Type" => some "Call Type"
  | "Date And Time" => some "Date And Time"
  | "IMEI" => some "IMEI"
  | "IMSI" => some "IMSI"
  | "Duration" => some "Duration"
  | "Cell ID" => some "Cell ID"
  | "SiteLocation" => some "SiteLocation"
  | "Aparty" | "aparty" | "A_Party" | "AParty" => some "A-Party"
  | "BParty" | "bparty" | "B_Party" => some "B-Party"
  | "Customer Msisdn" | "customer msisdn" | "Customer MSISDN" => some "B-Party"
  | "Msisdn" | "msisdn" | "MSISDN" => some "B-Party"
  | "Customer Number" | "customer number" => some "B-Party"
  | "Datetime" | "datetime" | "DateTime" => some "Date And Time"
  | "CallType" | "calltype" | "call_type" => some "Call Type"
  | "Imei" | "imei" => some "IMEI"
  | "Imsi" | "imsi" => some "IMSI"
  | "cellid" | "CellID" | "cell_id" => some "Cell ID"
  | "duration" => some "Duration"
  | "Location" | "location" => some "SiteLocation"
  | _ => none

/-- JS truthiness filter on a detector result (`if (detectedType)`): an empty
string is discarded like `null`. -/
def detectTruthy : Option String → Option String
  | some c => if c = "" then none else some c
  | none => none

/-- The `columnTypes` object of `normalizeColumnNames` (lines 160–181) as a
function of the original key.  Only keys of the first row are considered
(`Object.keys(data[0])`); the exact-name pass has absolute priority and the
pattern pass `detect` — the `detectColumnType` of lines 53–135, taken as a
parameter because its regular-expression and `Date.parse` internals are
engine-dependent and every claim about the normalizer quantifies over its
behavior — only runs on keys the exact pass left unmapped, on the first ten
rows' sample values. -/
def columnTypesOf (detect : String → List (Option Cell) → Option String)
    (data : List RawRow) (k : String) : Option String :=
  match data with
  | [] => none
  | r0 :: _ =>
    if (r0.map Prod.fst).contains k then
      match exactMapping k with
      | some c => some c
      | none => detectTruthy (detect k ((data.take 10).map (fun row => row.lookup k)))
    else none

/-- The key rewrite applied to each cell: `columnTypes[originalKey] ||
originalKey`. -/
def renameKey (detect : String → List (Option Cell) → Option String)
    (data : List RawRow) (k : String) : String :=
  (columnTypesOf detect data k).getD k

/-- Column normalization (lines 138–191): empty data passes through; otherwise
every row's keys are rewritten through `columnTypesOf`.  (When two original
columns map to the same canonical name the JS object write collapses them;
no claim depends on that collapse and the rewritten row keeps both cells.) -/
def normalizeColumnNames (detect : String → List (Option Cell) → Option String)
    (data : List RawRow) : List RawRow :=
  if data.isEmpty then data
  else data.map (fun row => row.map (fun kv => (renameKey detect data kv.1, kv.2)))

/-- Ascending comparator `(a, b) => key(a) - key(b)` as "a may precede b". -/
def keyLE {α κ : Type} [LinearOrder κ] (f : α → κ) (a b : α) : Prop := f a ≤ f b

instance {α κ : Type} [LinearOrder κ] (f : α → κ) : DecidableRel (keyLE f) :=
  fun a b => inferInstanceAs (Decidable (f a ≤ f b))

instance {α κ : Type} [LinearOrder κ] (f : α → κ) : IsTotal α (keyLE f) :=
  ⟨fun a b => le_total (f a) (f b)⟩

instance {α κ : Type} [LinearOrder κ] (f : α → κ) : IsTrans α (keyLE f) :=
  ⟨fun _ _ _ h1 h2 => le_trans h1 h2⟩

/-- Descending comparator `(a, b) => key(b) - key(a)` as "a may precede b". -/
def keyGE {α κ : Type} [LinearOrder κ] (f : α → κ) (a b : α) : Prop := f b ≤ f a

instance {α κ : Type} [LinearOrder κ] (f : α → κ) : DecidableRel (keyGE f) :=
  fun a b => inferInstanceAs (Decidable (f b ≤ f a))

instance {α κ : Type} [LinearOrder κ] (f : α → κ) : IsTotal α (keyGE f) :=
  ⟨fun a b => le_total (f b) (f a)⟩

instance {α κ : Type} [LinearOrder κ] (f : α → κ) : IsTrans α (keyGE f) :=
  ⟨fun _ _ _ h1 h2 => le_trans h2 h1⟩

/-- UTC hour of an instant (`getHours` under the UTC zone this deployment
assumes). -/
def jsHourUTC (z : ℤ) : ℕ := (z / 3600000 % 24).toNat

/-- UTC day-of-week of an instant, 0 = Sunday (`getDay` under UTC). -/
def jsDayUTC (z : ℤ) : ℕ := ((z / 86400000 + 4) % 7).toNat

/-- Result of `getTimeBasedActivity` (lines 562–583). -/
structure TimeActivity where
  peakHour : String
  peakDay : String
  hourlyDistribution : List ℕ
  activityScore : ℕ
deriving DecidableEq

/-- The short day names of `getTimeBasedActivity`. -/
def dayNames : List String := ["Sun", "Mon", "Tue", "Wed", "Thu", "Fri", "Sat"]

/-- Bucket counts: the `hourlyActivity`/`dailyActivity` arrays built by the
increment loop, described extensionally per bucket. -/
def countsBy (buckets : ℕ) (f : ℤ → ℕ) (tss : List ℤ) : List ℕ :=
  (List.range buckets).map (fun b => (tss.filter (fun t => f t = b)).length)

/-- `Math.max(...l)` for the nonempty nonnegative arrays used here. -/
def listMax (l : List ℕ) : ℕ := l.foldl max 0

/-- `Math.min(...l)` over a nonempty list of instants. -/
def listMinZ : List ℤ → ℤ
  | [] => 0
  | h :: t => t.foldl min h

/-- `Math.max(...l)` over a nonempty list of instants. -/
def listMaxZ : List ℤ → ℤ
  | [] => 0
  | h :: t => t.foldl max h

/-- `Math.round` — floor of the value plus one half. -/
def jsRound (q : ℚ) : ℤ := ⌊q + 1 / 2⌋

/-- Peak-hour/peak-day extraction (lines 562–583); `indexOf(max)` is the
first bucket attaining the maximum. -/
def getTimeBasedActivity (tss : List ℤ) : TimeActivity :=
  let hourly := countsBy 24 jsHourUTC tss
  let daily := countsBy 7 jsDayUTC tss
  { peakHour := toString (hourly.findIdx (fun x => x = listMax hourly)) ++ ":00",
    peakDay := dayNames.getD (daily.findIdx (fun x => x = listMax daily)) "",
    hourlyDistribution := hourly,
    activityScore := listMax hourly + listMax daily }

/-- The `coordinates` ternary `record.latitude && record.longitude ? {...} :
null` — a zero coordinate is falsy. -/
def jsCoordOf (r : CDRRecord) : Option (ℚ × ℚ) :=
  match r.latitude, r.longitude with
  | some la, some lo => if la ≠ 0 ∧ lo ≠ 0 then some (la, lo) else none
  | _, _ => none

/-- Accumulated per-site statistics of `analyzeLocationPatterns`. -/
structure LocStats where
  calls : ℕ
  duration : ℤ
  numbers : List String
  timestamps : List ℤ
  coordinates : Option (ℚ × ℚ)
  voice : ℕ
  sms : ℕ
deriving DecidableEq

/-- The accumulation loop of `analyzeLocationPatterns` (lines 893–921);
the site's coordinates are fixed by the first record that creates the key. -/
def locPatternsStats (records : List CDRRecord) : List (String × LocStats) :=
  (records.filter (fun r =>
      r.location ≠ "" ∧ (jsIncludes r.callType "call" ∨ jsIncludes r.callType "sms"))).foldl
    (fun m r =>
      mapBump (fun s =>
        { calls := s.calls + 1,
          duration := s.duration + r.duration.getD 0,
          numbers := setAdd s.numbers (jsOrStr2 r.calledNumber r.callerNumber),
          timestamps := s.timestamps ++ [r.timestamp],
          coordinates := s.coordinates,
          voice := s.voice + (if jsIncludes r.callType "call" then 1 else 0),
          sms := s.sms +
            (if jsIncludes r.callType "call" then 0
             else if jsIncludes r.callType "sms" then 1 else 0) })
        { calls := 0, duration := 0, numbers := [], timestamps := [],
          coordinates := jsCoordOf r, voice := 0, sms := 0 }
        r.location m) []

/-- One element of the `analyzeLocationPatterns` output
(`LocationAnalysisResult`, nested objects flattened into fields). -/
structure LocationAnalysis where
  location : String
  coordinates : ℚ × ℚ
  calls : ℕ
  duration : ℤ
  numbers : List String
  timeStart : String
  timeEnd : String
  primaryNumber : String
  peakHour : String
  peakDay : String
  peakScore : ℕ
  voice : ℕ
  sms : ℕ
  voicePercent : ℤ
  smsPercent : ℤ
  avgDuration : ℤ
  uniqueContacts : ℕ
deriving DecidableEq

/-- The per-site projection of `analyzeLocationPatterns` (lines 923–954). -/
def mkLocationAnalysis (p : String × LocStats) : LocationAnalysis :=
  let stats := p.2
  let ta := getTimeBasedActivity stats.timestamps
  { location := p.1,
    coordinates := stats.coordinates.getD (0, 0),
    calls := stats.calls,
    duration := stats.duration,
    numbers := stats.numbers,
    timeStart := toISOStringJS (listMinZ stats.timestamps),
    timeEnd := toISOStringJS (listMaxZ stats.timestamps),
    primaryNumber := stats.numbers.getD 0 "",
    peakHour := ta.peakHour,
    peakDay := ta.peakDay,
    peakScore := ta.activityScore,
    voice := stats.voice,
    sms := stats.sms,
    voicePercent := jsRound ((stats.voice : ℚ) / (stats.calls : ℚ) * 100),
    smsPercent := jsRound ((stats.sms : ℚ) / (stats.calls : ℚ) * 100),
    avgDuration := jsRound ((stats.duration : ℚ) / (max stats.voice 1 : ℚ)),
    uniqueContacts := stats.numbers.length }

/-- Site aggregates (lines 883–957): keep sites with at least three
interactions, sort by interaction count descending, keep the top 30. -/
def analyzeLocationPatterns (records : List CDRRecord) : List LocationAnalysis :=
  ((((locPatternsStats records).filter (fun p => p.2.calls ≥ 3)).map
    mkLocationAnalysis).insertionSort (keyGE (fun a => (a.calls : ℤ)))).take 30

/-- One grouped record of `analyzeMovementPatterns`. -/
structure Movement where
  location : String
  timestamp : ℤ
  calls : ℕ
  duration : ℤ
deriving DecidableEq

/-- One location-change event of `analyzeMovementPatterns`. -/
structure MoveChange where
  fromLocation : String
  toLocation : String
  timestamp : String
  callsAfter : ℕ
  durationAfter : ℤ
deriving DecidableEq

/-- One subscriber entry of `analyzeMovementPatterns`
(`LocationMovementResult`). -/
structure MovementResult where
  number : String
  changes : List MoveChange
  totalChanges : ℕ
  mobilityLevel : String
deriving DecidableEq

/-- The grouping loop of `analyzeMovementPatterns` (lines 962–978): only
records with a location and with `callType === 'call'` are considered. -/
def movementGroups (records : List CDRRecord) : List (String × List Movement) :=
  (records.filter (fun r => r.location ≠ "" ∧ r.callType = "call")).foldl
    (fun m r =>
      let targetNumber := jsOrStr2 r.calledNumber r.callerNumber
      if targetNumber = "" then m
      else mapBump (fun l => l ++ [⟨r.location, r.timestamp, 1, r.duration.getD 0⟩]) []
        targetNumber m) []

/-- The chronological walk of `analyzeMovementPatterns` (lines 986–1006):
counters reset on each change and the current movement is then counted
toward the new location. -/
def movementWalk : List Movement → String → ℕ → ℤ → List MoveChange
  | [], _, _, _ => []
  | mv :: rest, prevLoc, callsAcc, durAcc =>
    if prevLoc ≠ "" ∧ prevLoc ≠ mv.location then
      ⟨prevLoc, mv.location, toISOStringJS mv.timestamp, callsAcc, durAcc⟩ ::
        movementWalk rest mv.location mv.calls mv.duration
    else movementWalk rest mv.location (callsAcc + mv.calls) (durAcc + mv.duration)

/-- Mobility analysis (lines 959–1022): subscribers with at least one change,
`high` above 15 changes, `medium` above 8, else `low`; sorted by change count
descending, top 50. -/
def analyzeMovementPatterns (records : List CDRRecord) : List MovementResult :=
  let walked := (movementGroups records).map (fun p =>
    (p.1, movementWalk (p.2.insertionSort (keyLE (fun m : Movement => m.timestamp))) "" 0 0))
  let results := (walked.filter (fun q => q.2.length > 0)).map (fun q =>
    { number := q.1, changes := q.2, totalChanges := q.2.length,
      mobilityLevel :=
        if q.2.length > 15 then "high"
        else if q.2.length > 8 then "medium" else "low" : MovementResult })
  (results.insertionSort (keyGE (fun a : MovementResult => (a.totalChanges : ℤ)))).take 50

/-- Per-IMEI accumulated activity of `analyzeIMEIChanges`. -/
structure IMEIItem where
  imei : String
  timestamp : ℤ
  calls : ℕ
  duration : ℤ
  smsSent : ℕ
  smsReceived : ℕ
deriving DecidableEq

/-- The in-place update of an already-seen IMEI (lines 1038–1046); note the
dead `callType === 'call'` comparison is kept as written. -/
def imeiBumpItem (r : CDRRecord) (it : IMEIItem) : IMEIItem :=
  if r.callType = "call" then
    { it with calls := it.calls + 1, duration := it.duration + r.duration.getD 0 }
  else if r.callType = "sms_sent" then { it with smsSent := it.smsSent + 1 }
  else if r.callType = "sms_received" then { it with smsReceived := it.smsReceived + 1 }
  else it

/-- The fresh entry pushed for a first-seen IMEI (lines 1048–1055). -/
def imeiNewItem (r : CDRRecord) : IMEIItem :=
  { imei := r.imei, timestamp := r.timestamp,
    calls := if r.callType = "call" then 1 else 0,
    duration := if r.callType = "call" then r.duration.getD 0 else 0,
    smsSent := if r.callType = "sms_sent" then 1 else 0,
    smsReceived := if r.callType = "sms_received" then 1 else 0 }

/-- `find`-then-mutate-or-push on the per-number IMEI list. -/
def imeiUpdList (r : CDRRecord) : List IMEIItem → List IMEIItem
  | [] => [imeiNewItem r]
  | it :: rest =>
    if it.imei = r.imei then imeiBumpItem r it :: rest else it :: imeiUpdList r rest

/-- The grouping loop of `analyzeIMEIChanges` (lines 1027–1057). -/
def imeiGroups (records : List CDRRecord) : List (String × List IMEIItem) :=
  records.foldl (fun m r =>
    if r.imei = "" then m
    else
      let targetNumber := jsOrStr2 r.calledNumber r.callerNumber
      if targetNumber = "" then m
      else mapBump (imeiUpdList r) [] targetNumber m) []

/-- One device-change event of `analyzeIMEIChanges`. -/
structure IMEIChange where
  timestamp : String
  oldIMEI : String
  newIMEI : String
  callsAfter : ℕ
  durationAfter : ℤ
  smsSentAfter : ℕ
  smsReceivedAfter : ℕ
deriving DecidableEq

/-- One per-number entry of `analyzeIMEIChanges` (`IMEIChangeResult`). -/
structure IMEIChangeRes where
  number : String
  changes : List IMEIChange
  totalChanges : ℕ
deriving DecidableEq

/-- Adjacent transitions of the chronologically sorted IMEI list
(lines 1067–1079), each carrying the activity accumulated under the new
IMEI. -/
def adjacentChanges : List IMEIItem → List IMEIChange
  | a :: b :: rest =>
    ⟨toISOStringJS b.timestamp, a.imei, b.imei, b.calls, b.duration, b.smsSent, b.smsReceived⟩ ::
      adjacentChanges (b :: rest)
  | _ => []

/-- Device-change analysis (lines 1024–1091): numbers with at least two
IMEIs, sorted by change count descending, top 50. -/
def analyzeIMEIChanges (records : List CDRRecord) : List IMEIChangeRes :=
  ((((imeiGroups records).filter (fun p => p.2.length > 1)).map (fun p =>
      let changes :=
        adjacentChanges (p.2.insertionSort (keyLE (fun it : IMEIItem => it.timestamp)))
      ({ number := p.1, changes := changes, totalChanges := changes.length } : IMEIChangeRes))).insertionSort
    (keyGE (fun a : IMEIChangeRes => (a.totalChanges : ℤ)))).take 50

/-- One grouped timeline record of `analyzeDetailedLocationTimeline`. -/
structure TEntry where
  timestamp : ℤ
  location : String
  coordinates : Option (ℚ × ℚ)
  callType : String
  calledNumber : String
  duration : ℤ
deriving DecidableEq

/-- The grouping loop of `analyzeDetailedLocationTimeline` (lines 596–613). -/
def timelineGroups (records : List CDRRecord) : List (String × List TEntry) :=
  (records.filter (fun r => r.location ≠ "" ∧ r.callerNumber ≠ "")).foldl
    (fun m r =>
      mapBump (fun l =>
          l ++ [⟨r.timestamp, r.location, jsCoordOf r, r.callType, r.calledNumber,
            r.duration.getD 0⟩]) []
        r.callerNumber m) []

/-- One drill-down record of a stay (lines 662–667). -/
structure DetailedRec where
  timestamp : String
  callType : String
  number : String
  duration : ℤ
deriving DecidableEq

/-- The running `stats` object of a stay (lines 670–683). -/
structure TLStats where
  incomingCalls : ℕ
  outgoingCalls : ℕ
  incomingSms : ℕ
  outgoingSms : ℕ
  totalDuration : ℤ
  contactCounts : List (String × ℕ)
  callNumbers : List String
  smsNumbers : List String
  incomingCallNumbers : List String
  outgoingCallNumbers : List String
  incomingSmsNumbers : List String
  outgoingSmsNumbers : List String
deriving DecidableEq

/-- The zeroed stay statistics. -/
def tlStatsInit : TLStats := ⟨0, 0, 0, 0, 0, [], [], [], [], [], [], []⟩

/-- One iteration of the stay-statistics loop (lines 685–717). -/
def tlStatsStep (s : TLStats) (a : TEntry) : TLStats :=
  let targetNumber := jsOrStr2 a.calledNumber "Unknown"
  let s1 :=
    if a.callType = "call_incoming" then
      { s with
        incomingCalls := s.incomingCalls + 1,
        incomingCallNumbers := setAdd s.incomingCallNumbers targetNumber }
    else s
  let s2 :=
    if a.callType = "call_outgoing" then
      { s1 with
        outgoingCalls := s1.outgoingCalls + 1,
        outgoingCallNumbers := setAdd s1.outgoingCallNumbers targetNumber }
    else s1
  let s3 :=
    if a.callType = "sms_received" then
      { s2 with
        incomingSms := s2.incomingSms + 1,
        incomingSmsNumbers := setAdd s2.incomingSmsNumbers targetNumber }
    else s2
  let s4 :=
    if a.callType = "sms_sent" then
      { s3 with
        outgoingSms := s3.outgoingSms + 1,
        outgoingSmsNumbers := setAdd s3.outgoingSmsNumbers targetNumber }
    else s3
  let s5 := { s4 with totalDuration := s4.totalDuration + a.duration }
  if targetNumber ≠ "Unknown" then
    let s6 := { s5 with contactCounts := mapBump (· + 1) 0 targetNumber s5.contactCounts }
    if jsIncludes a.callType "call" then
      { s6 with callNumbers := setAdd s6.callNumbers targetNumber }
    else { s6 with smsNumbers := setAdd s6.smsNumbers targetNumber }
  else s5

/-- The first-strictly-greater scan for the top contacted number
(lines 719–727). -/
def topContactScan (l : List (String × ℕ)) : String × ℕ :=
  l.foldl (fun p q => if q.2 > p.2 then (q.1, q.2) else p) ("", 0)

/-- The stay-duration rendering (lines 730–733). -/
def stayDurationStr (ms : ℤ) : String :=
  let hrs := ms / 3600000
  let mins := jsRemZ ms 3600000 / 60000
  if hrs > 0 then toString hrs ++ "h " ++ toString mins ++ "m"
  else toString mins ++ "m"

/-- The `activityInNewLocation` payload of a change event. -/
structure TimelineActivity where
  incomingCalls : ℕ
  outgoingCalls : ℕ
  incomingSms : ℕ
  outgoingSms : ℕ
  totalDuration : ℤ
  topContactedNumber : String
  topContactCount : ℕ
  stayDuration : String
  uniqueContacts : ℕ
  incomingCallNumbers : List String
  outgoingCallNumbers : List String
  incomingSmsNumbers : List String
  outgoingSmsNumbers : List String
  totalCallNumbers : ℕ
  totalSmsNumbers : ℕ
  detailedRecords : List DetailedRec
deriving DecidableEq

/-- One change event of the detailed timeline (`changeTimeMs` is the instant
the ISO `changeTime` string denotes; the final sort re-reads it). -/
structure LocationChange where
  subscriber : String
  changeTime : String
  changeTimeMs : ℤ
  fromLocation : String
  toLocation : String
  coordinates : Option (ℚ × ℚ)
  activity : TimelineActivity
deriving DecidableEq

/-- The `findIndex` for the end of a stay (lines 648–653): first later index
with a different location, else the last record's timestamp. -/
def timelineFindEnd (timeline : List TEntry) (i : ℕ) (rloc : String) : ℤ :=
  match timeline.enum.find? (fun p => p.1 > i ∧ p.2.location ≠ rloc) with
  | some p => p.2.timestamp
  | none => ((timeline.getLast?).map (fun t => t.timestamp)).getD 0

/-- The records of the stay (lines 656–659). -/
def newLocationActivity (timeline : List TEntry) (i : ℕ) (rloc : String) (endTs : ℤ) :
    List TEntry :=
  (timeline.enum.filter (fun p => p.1 ≥ i ∧ p.2.location = rloc ∧ p.2.timestamp ≤ endTs)).map
    Prod.snd

/-- Assembly of one change event (lines 645–761). -/
def mkLocationChange (subscriber : String) (timeline : List TEntry) (i : ℕ) (r : TEntry)
    (cur : String) : LocationChange :=
  let endTs := timelineFindEnd timeline i r.location
  let acts := newLocationActivity timeline i r.location endTs
  let detailed := acts.map (fun a =>
    (⟨toISOStringJS a.timestamp, a.callType, a.calledNumber, a.duration⟩ : DetailedRec))
  let stats := acts.foldl tlStatsStep tlStatsInit
  let top := topContactScan stats.contactCounts
  { subscriber := subscriber,
    changeTime := toISOStringJS r.timestamp,
    changeTimeMs := r.timestamp,
    fromLocation := jsOrStr2 cur "Unknown",
    toLocation := r.location,
    coordinates := r.coordinates,
    activity :=
      { incomingCalls := stats.incomingCalls,
        outgoingCalls := stats.outgoingCalls,
        incomingSms := stats.incomingSms,
        outgoingSms := stats.outgoingSms,
        totalDuration := stats.totalDuration,
        topContactedNumber := top.1,
        topContactCount := top.2,
        stayDuration := stayDurationStr (endTs - r.timestamp),
        uniqueContacts := stats.contactCounts.length,
        incomingCallNumbers := stats.incomingCallNumbers.take 5,
        outgoingCallNumbers := stats.outgoingCallNumbers.take 5,
        incomingSmsNumbers := stats.incomingSmsNumbers.take 5,
        outgoingSmsNumbers := stats.outgoingSmsNumbers.take 5,
        totalCallNumbers := stats.callNumbers.length,
        totalSmsNumbers := stats.smsNumbers.length,
        detailedRecords := detailed } }

/-- The index loop over a subscriber's sorted timeline (lines 642–766). -/
def timelineWalk (subscriber : String) (timeline : List TEntry) :
    List TEntry → ℕ → String → List LocationChange
  | [], _, _ => []
  | r :: rest, i, cur =>
    if r.location ≠ cur then
      mkLocationChange subscriber timeline i r cur ::
        timelineWalk subscriber timeline rest (i + 1) r.location
    else timelineWalk subscriber timeline rest (i + 1) cur

/-- Location-change timeline (lines 585–772): per-subscriber chronological
walk, most recent change first, top 20. -/
def analyzeDetailedLocationTimeline (records : List CDRRecord) : List LocationChange :=
  let changes := ((timelineGroups records).map (fun p =>
    let sorted := p.2.insertionSort (keyLE (fun t : TEntry => t.timestamp))
    match sorted with
    | [] => []
    | t0 :: rest => timelineWalk p.1 sorted rest 1 t0.location)).flatten
  (changes.insertionSort (keyGE (fun c : LocationChange => c.changeTimeMs))).take 20

/-- One day bucket of `analyzeSpecificNumber` while accumulating. -/
structure DayGroup where
  date : String
  calls : ℕ
  sms : ℕ
  duration : ℤ
  records : List CDRRecord
deriving DecidableEq

/-- The day-bucketing loop of `analyzeSpecificNumber` (lines 793–815). -/
def dailyDataOf (numberRecords : List CDRRecord) : List (String × DayGroup) :=
  numberRecords.foldl (fun m r =>
    let dateStr := isoDateOfMs r.timestamp
    mapBump (fun d =>
        let d1 := { d with records := d.records ++ [r] }
        if jsIncludes r.callType "call" then
          { d1 with calls := d1.calls + 1, duration := d1.duration + r.duration.getD 0 }
        else if jsIncludes r.callType "sms" then { d1 with sms := d1.sms + 1 }
        else d1)
      (⟨dateStr, 0, 0, 0, []⟩ : DayGroup) dateStr m) []

/-- One rendered record of a day's drill-down (lines 826–833). -/
structure DayRecordView where
  timestamp : String
  callType : String
  duration : ℤ
  callerNumber : String
  calledNumber : String
  location : String
deriving DecidableEq

/-- One day of the `dailyBreakdown` output (lines 817–834). -/
structure DayBreakdown where
  date : String
  calls : ℕ
  sms : ℕ
  duration : ℤ
  total : ℕ
  records : List DayRecordView
deriving DecidableEq

/-- Projection of a day bucket to its output row, records sorted
chronologically. -/
def mkDayBreakdown (d : DayGroup) : DayBreakdown :=
  { date := d.date, calls := d.calls, sms := d.sms, duration := d.duration,
    total := d.calls + d.sms,
    records := (d.records.insertionSort (keyLE (fun r : CDRRecord => r.timestamp))).map
      (fun r => ⟨toISOStringJS r.timestamp, r.callType, r.duration.getD 0, r.callerNumber,
        r.calledNumber, r.location⟩) }

/-- The `reduce` picking the most active day (first maximum wins). -/
def reduceMost : List DayBreakdown → Option DayBreakdown
  | [] => none
  | h :: t => some (t.foldl (fun mx d => if d.total > mx.total then d else mx) h)

/-- The `reduce` picking the least active day (first minimum wins). -/
def reduceLeast : List DayBreakdown → Option DayBreakdown
  | [] => none
  | h :: t => some (t.foldl (fun mn d => if d.total < mn.total then d else mn) h)

/-- Long weekday names of `toLocaleDateString('en-US', ...)`. -/
def weekdayNames : List String :=
  ["Sunday", "Monday", "Tuesday", "Wednesday", "Thursday", "Friday", "Saturday"]

/-- Long month names of `toLocaleDateString('en-US', ...)`. -/
def monthNames : List String :=
  ["January", "February", "March", "April", "May", "June", "July", "August",
    "September", "October", "November", "December"]

/-- Model of `new Date(s).toLocaleDateString('en-US', { weekday: 'long',
month: 'long', day: 'numeric' })` on a `YYYY-MM-DD` key, under the UTC zone
this deployment assumes. -/
def localeLongDate (s : String) : String :=
  let day := parseIsoDayMs s / 86400000
  match civilFromDays day with
  | (_, m, d) =>
    weekdayNames.getD ((day + 4) % 7).toNat "" ++ ", " ++ monthNames.getD (m - 1) "" ++
      " " ++ toString d

/-- The most/least-active-day summary of `analyzeSpecificNumber`. -/
structure ActiveDaySummary where
  date : String
  calls : ℕ
  sms : ℕ
  duration : ℤ
  total : ℕ
deriving DecidableEq

/-- Projection of a day to its active-day summary (lines 857–878). -/
def mkActiveDaySummary (d : DayBreakdown) : ActiveDaySummary :=
  ⟨localeLongDate d.date, d.calls, d.sms, d.duration, d.total⟩

/-- The full `analyzeSpecificNumber` result. -/
structure SpecificNumberResult where
  number : String
  totalDays : ℕ
  totalCalls : ℕ
  totalSms : ℕ
  totalDuration : ℤ
  avgPerDay : ℚ
  mostActiveDay : Option ActiveDaySummary
  leastActiveDay : Option ActiveDaySummary
  dailyBreakdown : List DayBreakdown
deriving DecidableEq

/-- Number profile (lines 774–881): records where the target appears as
caller or called party, bucketed by UTC calendar day, newest day first,
limited to 90 days; `null` when the number has no records. -/
def analyzeSpecificNumber (records : List CDRRecord) (targetNumber : String) :
    Option SpecificNumberResult :=
  let numberRecords := records.filter (fun r =>
    r.callerNumber = targetNumber ∨ r.calledNumber = targetNumber)
  if numberRecords.isEmpty then none
  else
    let dailyBreakdown :=
      (((dailyDataOf numberRecords).map Prod.snd).map mkDayBreakdown).insertionSort
        (keyGE (fun d : DayBreakdown => parseIsoDayMs d.date))
    let totalCalls := (dailyBreakdown.map (fun d => d.calls)).sum
    let totalSms := (dailyBreakdown.map (fun d => d.sms)).sum
    let totalDuration := (dailyBreakdown.map (fun d => d.duration)).sum
    let activeDays := dailyBreakdown.filter (fun d => d.total > 0)
    let activeDaysWithData := activeDays.filter (fun d => d.total > 0)
    some
      { number := targetNumber,
        totalDays := activeDays.length,
        totalCalls := totalCalls,
        totalSms := totalSms,
        totalDuration := totalDuration,
        avgPerDay :=
          if activeDays.length > 0 then
            ((totalCalls + totalSms : ℕ) : ℚ) / (activeDays.length : ℚ)
          else 0,
        mostActiveDay := (reduceMost activeDaysWithData).map mkActiveDaySummary,
        leastActiveDay := (reduceLeast activeDaysWithData).map mkActiveDaySummary,
        dailyBreakdown := dailyBreakdown.take 90 }

/-- One per-day record of `generateDailyBreakdown`. -/
structure DailyStats where
  date : String
  incomingCalls : ℕ
  outgoingCalls : ℕ
  incomingSms : ℕ
  outgoingSms : ℕ
deriving DecidableEq

/-- The accumulating counters of `generateDailyBreakdown`. -/
structure DayCounts where
  incomingCalls : ℕ
  outgoingCalls : ℕ
  incomingSms : ℕ
  outgoingSms : ℕ
deriving DecidableEq

/-- Per-day incoming/outgoing call and SMS counts (lines 1102–1131), sorted
ascending by the `YYYY-MM-DD` key (ASCII compare models `localeCompare`
here). -/
def generateDailyBreakdown (records : List CDRRecord) : List DailyStats :=
  ((records.foldl (fun m r =>
      mapBump (fun s =>
          if r.callType = "call_incoming" then
            { s with incomingCalls := s.incomingCalls + 1 }
          else if r.callType = "call_outgoing" then
            { s with outgoingCalls := s.outgoingCalls + 1 }
          else if r.callType = "sms_received" then
            { s with incomingSms := s.incomingSms + 1 }
          else if r.callType = "sms_sent" then
            { s with outgoingSms := s.outgoingSms + 1 }
          else s)
        (⟨0, 0, 0, 0⟩ : DayCounts) (isoDateOfMs r.timestamp) m) []).map
    (fun p =>
      (⟨p.1, p.2.incomingCalls, p.2.outgoingCalls, p.2.incomingSms, p.2.outgoingSms⟩ :
        DailyStats))).insertionSort (keyLE (fun d : DailyStats => d.date))

/-- Fixed-point-one rendering of a rational, modelling `toFixed(1)` for the
nonnegative values that occur. -/
def toFixed1 (q : ℚ) : String :=
  let n : ℤ := ⌊q * 10 + 1 / 2⌋
  toString (n / 10) ++ "." ++ toString (n % 10)

/-- The whole-file summary (`FileStats`). -/
structure FileStats where
  totalRecords : ℕ
  uniqueNumbers : ℕ
  dateRange : String
  processingTime : String
  dailyBreakdown : List DailyStats
deriving DecidableEq

/-- File statistics (lines 1133–1148): record count, distinct caller count,
whole-day span of the timestamp range, processing time in seconds, per-day
breakdown. -/
def generateFileStats (records : List CDRRecord) (processingTime : ℚ) : FileStats :=
  let timestamps := records.map (fun r => r.timestamp)
  let dateRange : ℤ :=
    if timestamps.length > 0 then
      ⌈((listMaxZ timestamps - listMinZ timestamps : ℤ) : ℚ) / 86400000⌉
    else 0
  { totalRecords := records.length,
    uniqueNumbers := ((records.map (fun r => r.callerNumber)).foldl setAdd []).length,
    dateRange := toString dateRange ++ " Days",
    processingTime := toFixed1 (processingTime / 1000) ++ "s",
    dailyBreakdown := generateDailyBreakdown records }

/-- The spec's serial-date formula: the Unix epoch plus `(n - 25569)` days of
milliseconds, shifted back by exactly five hours (stated at the integral
millisecond precision a `Date` stores). -/
def specSerialTimestamp (n : ℚ) : ℤ :=
  jsTrunc ((n - 25569) * 86400 * 1000) - 5 * 60 * 60 * 1000

/-- A concrete environment: string-date parsing always fails, `Date.now()` is
2023-11-14T22:13:20Z, every random draw is zero, `setHours` keeps the
instant. -/
def envC : JsEnv :=
  ⟨fun _ => none, fun _ => 0, 1700000000000, 0, 0, 0, 0, 0, 0, 0, fun z _ _ _ => z⟩

/-- A concrete environment whose string-date parsing always succeeds at
2023-03-15T00:00:00Z with year 2023. -/
def envP : JsEnv :=
  ⟨fun _ => some 1678838400000, fun _ => 2023, 1700000000000, 0, 0, 0, 0, 0, 0, 0,
    fun z _ _ _ => z⟩

/-- A row whose SiteLocation is `"Tower B"` with no Latitude/Longitude
columns. -/
def rowTowerB : CanonicalRow := { aParty := some "923001112233", siteLocation := some "Tower B" }

/-- A row whose SiteLocation carries name and both coordinates. -/
def rowTowerA : CanonicalRow :=
  { aParty := some "923001112233", siteLocation := some "Tower A|24.86|67.01" }

/-- A row whose combined Date-And-Time cell is the number `0`. -/
def rowSerial0 : CanonicalRow := { aParty := some "923001112233", dateAndTime := some (Cell.num 0) }

/-- A row whose combined Date-And-Time cell is the serial number `45000`. -/
def rowSerial45000 : CanonicalRow :=
  { aParty := some "923001112233", dateAndTime := some (Cell.num 45000) }

/-- One of seventeen rows of a single caller, each at a fresh site. -/
def rowC4 (i : ℕ) : CanonicalRow :=
  { aParty := some "923000000001", bParty := some "923000000002", callType := some "outgoing",
    siteLocation := some ("Site " ++ toString i), dateAndTime := some (Cell.str "x") }

/-- Seventeen parsed-input rows walking through seventeen distinct sites
(sixteen location changes). -/
def rowsC4 : List CanonicalRow := (List.range 17).map rowC4

/-- A minimal outgoing-call record for ranking tests. -/
def mkCallRec (caller called : String) : CDRRecord :=
  { callerNumber := caller, calledNumber := called, imei := "", callType := "call_outgoing",
    duration := some 10, timestamp := 0, location := "", latitude := none, longitude := none,
    uploadId := "u" }

/-- Three outgoing calls: one to `"A"`, two to `"B"`. -/
def recsC5 : List CDRRecord := [mkCallRec "1" "A", mkCallRec "1" "B", mkCallRec "1" "B"]

/-- Two outgoing calls to distinct numbers — a value tie. -/
def recsTie : List CDRRecord := [mkCallRec "1" "A", mkCallRec "1" "B"]

/-- The entry the tied number `"A"` produces. -/
def entA : RankEntry0 := { number := "A", value := 1, displayValue := "1" }

/-- The entry the tied number `"B"` produces. -/
def entB : RankEntry0 := { number := "B", value := 1, displayValue := "1" }

/-- Out-of-range default for reading ranked lists with `getD`. -/
def rkDefault : RankEntry := ⟨"", 0, "", 0⟩

/-- An incoming-SMS record from `"A"` to `"B"` for the top-N attribution
claim. -/
def smsSentRec : CDRRecord :=
  { callerNumber := "A", calledNumber := "B", imei := "", callType := "sms_sent",
    duration := none, timestamp := 0, location := "", latitude := none, longitude := none,
    uploadId := "u" }

/-- A received-SMS record for the top-N attribution claim. -/
def smsRecvRec : CDRRecord :=
  { callerNumber := "A", calledNumber := "B", imei := "", callType := "sms_received",
    duration := none, timestamp := 0, location := "", latitude := none, longitude := none,
    uploadId := "u" }

/-- A one-row raw data set with one exactly-mapped and one unmapped header. -/
def data9 : List RawRow := [[("Aparty", Cell.str "111"), ("Odd", Cell.str "v")]]

/-- A detector that claims `"B-Party"` for the header `"Odd"` and `"IMEI"`
for everything else — so an exact-table hit must override it to count as
priority. -/
def detect9 : String → List (Option Cell) → Option String :=
  fun k _ => if k = "Odd" then some "B-Party" else some "IMEI"

lemma mapBump_lookup {β : Type} (f : β → β) (d : β) (k : String) (m : List (String × β)) :
    (mapBump f d k m).lookup k = some (f ((m.lookup k).getD d)) := by
  induction m with
  | nil => simp [mapBump, List.lookup]
  | cons h t ih =>
    obtain ⟨k1, v⟩ := h
    by_cases hk : k1 = k
    · subst hk
      simp [mapBump, List.lookup]
    · have hbeq : (k == k1) = false := by
        rw [beq_eq_false_iff_ne]
        exact fun h => hk h.symm
      simp [mapBump, hk, List.lookup, hbeq, ih]

lemma filter_map_comm {α β : Type} (f : α → β) (p : β → Bool) (l : List α) :
    (l.map f).filter p = (l.filter (fun x => p (f x))).map f := by
  induction l with
  | nil => rfl
  | cons h t ih =>
    by_cases hp : p (f h)
    · simp [hp, ih]
    · simp [hp, ih]

/-- C2: call-type classification — "SMS Outgoing" → sms_sent, "Incoming SMS" →
sms_received, "MT" → call_incoming, "MO" → call_outgoing, bare "Voice" →
call_outgoing, unrecognized "XYZ" → call_outgoing; the same answers on the
lower-cased spellings (the classifier lower-cases and trims first), and every
parsed record's call type is this classification of its Call Type cell. -/
theorem c2_call_type_classification :
    normalizeCallType "SMS Outgoing" = "sms_sent" ∧
    normalizeCallType "Incoming SMS" = "sms_received" ∧
    normalizeCallType "MT" = "call_incoming" ∧
    normalizeCallType "MO" = "call_outgoing" ∧
    normalizeCallType "Voice" = "call_outgoing" ∧
    normalizeCallType "XYZ" = "call_outgoing" ∧
    normalizeCallType " sms outgoing " = "sms_sent" ∧
    normalizeCallType "incoming sms" = "sms_received" ∧
    normalizeCallType "mt" = "call_incoming" ∧
    normalizeCallType "mo" = "call_outgoing" ∧
    normalizeCallType "voice" = "call_outgoing" ∧
    normalizeCallType "xyz" = "call_outgoing" ∧
    (∀ (env : JsEnv) (uid : String) (row : CanonicalRow),
      (parseRow env uid row).callType = normalizeCallType (jsOrStr row.callType "call")) :=
  ⟨by decide, by decide, by decide, by decide, by decide, by decide, by decide, by decide,
    by decide, by decide, by decide, by decide, fun _ _ _ => rfl⟩

/-- C3: drop rule — the parser's output is exactly the per-row parse of the
rows whose trimmed A-Party cell is non-empty; a record's caller number is
that trimmed cell, and every emitted record has a non-empty caller number
(no other field affects survival). -/
theorem c3_drop_rule (envs : ℕ → JsEnv) (uploadId : String) (rows : List CanonicalRow) :
    parseExcelToCDR envs uploadId rows =
      (rows.enum.filter (fun p => trimJS (jsOrStr p.2.aParty "") ≠ "")).map
        (fun p => parseRow (envs p.1) uploadId p.2) ∧
    (∀ (p : ℕ × CanonicalRow),
      (parseRow (envs p.1) uploadId p.2).callerNumber = trimJS (jsOrStr p.2.aParty "")) ∧
    (∀ r ∈ parseExcelToCDR envs uploadId rows, r.callerNumber ≠ "") := by
  have h1 : parseExcelToCDR envs uploadId rows =
      (rows.enum.filter (fun p => trimJS (jsOrStr p.2.aParty "") ≠ "")).map
        (fun p => parseRow (envs p.1) uploadId p.2) := by
    unfold parseExcelToCDR
    rw [filter_map_comm]
    rfl
  refine ⟨h1, fun _ => rfl, ?_⟩
  intro r hr
  unfold parseExcelToCDR at hr
  rcases List.mem_filter.mp hr with ⟨_, hcond⟩
  simpa using hcond

lemma parseLocCore_towerA (a b : Option String) :
    parseLocCore "Tower A|24.86|67.01" a b =
      ("Tower A", some (mkRat 2486 100), some (mkRat 6701 100)) := by
  have h1 : splitOnChar '|' "Tower A|24.86|67.01" = ["Tower A", "24.86", "67.01"] := by decide
  have h2 : parseFloatQ "24.86" = some (mkRat 2486 100) := by decide
  have h3 : parseFloatQ "67.01" = some (mkRat 6701 100) := by decide
  have h4 : trimJS "Tower A" = "Tower A" := by decide
  simp [parseLocCore, h1, h2, h3, h4]

lemma parseRow_location (env : JsEnv) (uid : String) (row : CanonicalRow) :
    (parseRow env uid row).location = (parseLocation row).1 ∧
    (parseRow env uid row).latitude = (parseLocation row).2.1 ∧
    (parseRow env uid row).longitude = (parseLocation row).2.2 :=
  ⟨rfl, rfl, rfl⟩

/-- C1 counterexample: a row whose SiteLocation is `"Tower B"` with no
Latitude/Longitude columns parses to latitude 0 and longitude 0 — not null —
because the separate-field fallback reads the absent cells as `'0'`. -/
theorem c1_counterexample :
    (parseRow envC "u" rowTowerB).location = "Tower B" ∧
    (parseRow envC "u" rowTowerB).latitude = some 0 ∧
    (parseRow envC "u" rowTowerB).longitude = some 0 ∧
    (parseRow envC "u" rowTowerB).latitude ≠ none ∧
    (parseRow envC "u" rowTowerB).longitude ≠ none := by
  refine ⟨by decide, by decide, by decide, by decide, by decide⟩

/-- C1 (amended): `"Tower A|24.86|67.01"` splits into name "Tower A",
latitude 24.86 and longitude 67.01 (the fallback is skipped); `"Tower B"`
with absent Latitude/Longitude fields yields location "Tower B" with
latitude 0 and longitude 0, since the fallback applies whenever a coordinate
is still null and reads a missing field as the string `'0'`. -/
theorem c1_location_decomposition (env : JsEnv) (uid : String) (row : CanonicalRow) :
    (jsOrStr row.siteLocation "" = "Tower A|24.86|67.01" →
      (parseRow env uid row).location = "Tower A" ∧
      (parseRow env uid row).latitude = some (24.86 : ℚ) ∧
      (parseRow env uid row).longitude = some (67.01 : ℚ)) ∧
    (jsOrStr row.siteLocation "" = "Tower B" → row.latitude = none → row.longitude = none →
      (parseRow env uid row).location = "Tower B" ∧
      (parseRow env uid row).latitude = some 0 ∧
      (parseRow env uid row).longitude = some 0) := by
  constructor
  · intro h
    have hq1 : (mkRat 2486 100) = (24.86 : ℚ) := by norm_num [mkRat, Rat.normalize]
    have hq2 : (mkRat 6701 100) = (67.01 : ℚ) := by norm_num [mkRat, Rat.normalize]
    have hloc : parseLocation row =
        ("Tower A", some (mkRat 2486 100), some (mkRat 6701 100)) := by
      unfold parseLocation
      rw [h, parseLocCore_towerA]
    refine ⟨?_, ?_, ?_⟩
    · rw [(parseRow_location env uid row).1, hloc]
    · rw [(parseRow_location env uid row).2.1, hloc, hq1]
    · rw [(parseRow_location env uid row).2.2, hloc, hq2]
  · intro h hlat hlng
    have hcore : parseLocCore "Tower B" none none = ("Tower B", some 0, some 0) := by decide
    have hloc : parseLocation row = ("Tower B", some 0, some 0) := by
      unfold parseLocation
      rw [h, hlat, hlng, hcore]
    exact ⟨by rw [(parseRow_location env uid row).1, hloc],
      by rw [(parseRow_location env uid row).2.1, hloc],
      by rw [(parseRow_location env uid row).2.2, hloc]⟩

/-- C1 witness: the amended statement applied to the two concrete rows. -/
theorem c1_witness :
    jsOrStr rowTowerA.siteLocation "" = "Tower A|24.86|67.01" ∧
    ((parseRow envC "u" rowTowerA).location = "Tower A" ∧
      (parseRow envC "u" rowTowerA).latitude = some (24.86 : ℚ) ∧
      (parseRow envC "u" rowTowerA).longitude = some (67.01 : ℚ)) ∧
    jsOrStr rowTowerB.siteLocation "" = "Tower B" ∧
    ((parseRow envC "u" rowTowerB).location = "Tower B" ∧
      (parseRow envC "u" rowTowerB).latitude = some 0 ∧
      (parseRow envC "u" rowTowerB).longitude = some 0) :=
  ⟨by decide, (c1_location_decomposition envC "u" rowTowerA).1 (by decide),
    by decide, (c1_location_decomposition envC "u" rowTowerB).2 (by decide) rfl rfl⟩

/-- C7 counterexample: a row whose Date-And-Time cell is the number `0` is
falsy, skips the serial branch entirely, and gets the random now-based
fallback — under `envC` that is 1700000000000, not the serial formula's
value. -/
theorem c7_counterexample :
    (parseRow envC "u" rowSerial0).timestamp = 1700000000000 ∧
    specSerialTimestamp 0 = -2209179600000 ∧
    (parseRow envC "u" rowSerial0).timestamp ≠ specSerialTimestamp 0 := by
  have h1 : (parseRow envC "u" rowSerial0).timestamp = 1700000000000 := by decide
  have h2 : specSerialTimestamp 0 = -2209179600000 := by
    norm_num [specSerialTimestamp, jsTrunc]
  exact ⟨h1, h2, by rw [h1, h2]; decide⟩

/-- C7 (amended): for a row whose Date-And-Time cell is a nonzero number `n`
whose converted instant (and its 5-hour shift) is a representable date, the
resolved timestamp is the epoch plus `(n - 25569)` days of milliseconds
shifted back by exactly five hours, independent of every environment draw
(no randomness involved). -/
theorem c7_serial_timestamp (env env2 : JsEnv) (uid : String) (row : CanonicalRow) (n : ℚ)
    (hdt : row.dateAndTime = some (Cell.num n)) (hn : n ≠ 0)
    (h1 : |(n - 25569) * 86400000| ≤ 8640000000000000)
    (h2 : |jsTrunc ((n - 25569) * 86400000) - 18000000| ≤ 8640000000000000) :
    (parseRow env uid row).timestamp = specSerialTimestamp n ∧
    (parseRow env uid row).timestamp = jsTrunc ((n - 25569) * 86400000) - 18000000 ∧
    (parseRow env uid row).timestamp = (parseRow env2 uid row).timestamp := by
  have key : ∀ e : JsEnv, resolveTimestamp e row = jsTrunc ((n - 25569) * 86400000) - 18000000 := by
    intro e
    unfold resolveTimestamp timestampBeforeRepair
    rw [hdt]
    have ht : cellTruthy (some (Cell.num n)) = true := by simp [cellTruthy, hn]
    rw [ht]
    simp only [if_true]
    unfold serialBranchTs newDateFromQ newDateFromZ
    rw [if_pos h1]
    simp [h2]
  have hts : ∀ e : JsEnv, (parseRow e uid row).timestamp = resolveTimestamp e row :=
    fun _ => rfl
  have hspec : specSerialTimestamp n = jsTrunc ((n - 25569) * 86400000) - 18000000 := by
    have harg : (n - 25569) * (86400 : ℚ) * 1000 = (n - 25569) * 86400000 := by ring
    unfold specSerialTimestamp
    rw [harg]
    norm_num
  exact ⟨by rw [hts env, key env, hspec], by rw [hts env, key env],
    by rw [hts env, key env, hts env2, key env2]⟩

/-- C7 witness: the amended statement applied at serial 45000 (2023-03-15),
under the concrete environment. -/
theorem c7_serial_witness :
    rowSerial45000.dateAndTime = some (Cell.num 45000) ∧ (45000 : ℚ) ≠ 0 ∧
    |((45000 : ℚ) - 25569) * 86400000| ≤ 8640000000000000 ∧
    |jsTrunc (((45000 : ℚ) - 25569) * 86400000) - 18000000| ≤ 8640000000000000 ∧
    (parseRow envC "u" rowSerial45000).timestamp = specSerialTimestamp 45000 := by
  have hv : ((45000 : ℚ) - 25569) * 86400000 = 1678838400000 := by norm_num
  have htr : jsTrunc (((45000 : ℚ) - 25569) * 86400000) = 1678838400000 := by
    rw [hv]; norm_num [jsTrunc]
  refine ⟨rfl, by norm_num, by rw [hv]; norm_num, by rw [htr]; norm_num, ?_⟩
  exact (c7_serial_timestamp envC envC "u" rowSerial45000 45000 rfl (by norm_num)
    (by rw [hv]; norm_num) (by rw [htr]; norm_num)).1

lemma normalizeCallType_mem (raw : String) :
    normalizeCallType raw = "sms_sent" ∨ normalizeCallType raw = "sms_received" ∨
    normalizeCallType raw = "call_outgoing" ∨ normalizeCallType raw = "call_incoming" := by
  simp only [normalizeCallType]
  generalize trimJS (lowerJS raw) = t
  split_ifs <;>
    first
    | exact Or.inl rfl
    | exact Or.inr (Or.inl rfl)
    | exact Or.inr (Or.inr (Or.inl rfl))
    | exact Or.inr (Or.inr (Or.inr rfl))

lemma parsed_callType_ne_call (envs : ℕ → JsEnv) (uid : String) (rows : List CanonicalRow)
    (r : CDRRecord) (hr : r ∈ parseExcelToCDR envs uid rows) : r.callType ≠ "call" := by
  unfold parseExcelToCDR at hr
  have hr2 := List.mem_of_mem_filter hr
  rcases List.mem_map.mp hr2 with ⟨p, _, hp⟩
  have hct : r.callType = normalizeCallType (jsOrStr p.2.callType "call") := by
    rw [← hp]
    rfl
  rcases normalizeCallType_mem (jsOrStr p.2.callType "call") with h | h | h | h <;>
    rw [hct, h] <;> decide

lemma analyzeMovementPatterns_parse_nil (envs : ℕ → JsEnv) (uid : String)
    (rows : List CanonicalRow) :
    analyzeMovementPatterns (parseExcelToCDR envs uid rows) = [] := by
  have hfilter : (parseExcelToCDR envs uid rows).filter
      (fun r => decide (r.location ≠ "" ∧ r.callType = "call")) = [] := by
    rw [List.filter_eq_nil_iff]
    intro r hr
    have := parsed_callType_ne_call envs uid rows r hr
    simp [this]
  unfold analyzeMovementPatterns movementGroups
  rw [hfilter]
  rfl

/-- C4: the mobility analyzer is dead on parsed records — its filter keeps
only `callType === 'call'`, which the parser never emits.  Concretely,
seventeen parsed rows of one caller walking through seventeen distinct sites
(sixteen location changes, which the spec says must classify as `high`
mobility) produce an empty mobility output; in general the analyzer returns
the empty list on every parsed record set. -/
theorem c4_mobility_dead_filter :
    (parseExcelToCDR (fun _ => envP) "u" rowsC4).length = 17 ∧
    ((parseExcelToCDR (fun _ => envP) "u" rowsC4).map (fun r => r.location) =
      (List.range 17).map (fun i => "Site " ++ toString i)) ∧
    (∀ r ∈ parseExcelToCDR (fun _ => envP) "u" rowsC4, r.callType = "call_outgoing") ∧
    analyzeMovementPatterns (parseExcelToCDR (fun _ => envP) "u" rowsC4) = [] ∧
    (∀ (envs : ℕ → JsEnv) (uid : String) (rows : List CanonicalRow),
      analyzeMovementPatterns (parseExcelToCDR envs uid rows) = []) :=
  ⟨by decide, by decide, by decide, analyzeMovementPatterns_parse_nil _ _ _,
    analyzeMovementPatterns_parse_nil⟩

lemma rankify_length (l : List RankEntry0) : (rankify l).length = l.length := by
  simp [rankify]

lemma rankify_get_value (l : List RankEntry0) (j : ℕ) (hj : j < (rankify l).length)
    (hj2 : j < l.length) :
    ((rankify l).get ⟨j, hj⟩).value = (l.get ⟨j, hj2⟩).value := by
  simp [rankify]

lemma rankify_get_rank (l : List RankEntry0) (j : ℕ) (hj : j < (rankify l).length) :
    ((rankify l).get ⟨j, hj⟩).rank = j + 1 := by
  simp [rankify]

lemma sortDescValue_pairwise (l : List RankEntry0) :
    (sortDescValue l).Pairwise entryDescLE :=
  List.sorted_insertionSort entryDescLE l

lemma rankified_sorted (s : List RankEntry0) (hs : s.Pairwise entryDescLE) (i j : ℕ)
    (hij : i < j) (hj : j < (rankify s).length) :
    ((rankify s).get ⟨j, hj⟩).value ≤ ((rankify s).get ⟨i, hij.trans hj⟩).value := by
  have hjs : j < s.length := by
    have := rankify_length s
    omega
  have his : i < s.length := hij.trans hjs
  have hp := List.pairwise_iff_get.mp hs ⟨i, his⟩ ⟨j, hjs⟩ hij
  rw [rankify_get_value s j hj hjs, rankify_get_value s i (hij.trans hj) his]
  exact hp

lemma sortDescValue_stable (l : List RankEntry0) (a b : RankEntry0) (hv : a.value = b.value)
    (hsub : List.Sublist [a, b] l) : List.Sublist [a, b] (sortDescValue l) := by
  apply List.sublist_insertionSort _ hsub
  simp [List.pairwise_cons, entryDescLE]
  exact le_of_eq hv.symm

/-- C5: ranking ordering — in every per-type ranking and in the combined
top-N view, values are non-increasing along the output, ranks are the 1-based
positions, ties keep their encounter order (any two tied entries that appear
in order in the accumulated entry list appear in the same order in the
sorted list), and each analyzer is exactly the rankified stable descending
sort of its entry list (top-N truncated to 200 before ranking). -/
theorem c5_ranking_ordering (records : List CDRRecord) (ty : TopType) :
    (∀ s : List RankEntry0,
      (s = sortDescValue (outgoingCallEntries records) ∨
        s = sortDescValue (incomingCallEntries records) ∨
        s = sortDescValue (outgoingSMSEntries records) ∨
        s = sortDescValue (incomingSMSEntries records) ∨
        s = (sortDescValue (topEntries records ty)).take 200) →
      (∀ (i j : ℕ) (hij : i < j) (hj : j < (rankify s).length),
        ((rankify s).get ⟨j, hj⟩).value ≤ ((rankify s).get ⟨i, hij.trans hj⟩).value) ∧
      (∀ (j : ℕ) (hj : j < (rankify s).length), ((rankify s).get ⟨j, hj⟩).rank = j + 1)) ∧
    (∀ pre : List RankEntry0,
      (pre = outgoingCallEntries records ∨ pre = incomingCallEntries records ∨
        pre = outgoingSMSEntries records ∨ pre = incomingSMSEntries records ∨
        pre = topEntries records ty) →
      ∀ a b : RankEntry0, a.value = b.value → List.Sublist [a, b] pre → List.Sublist [a, b] (sortDescValue pre)) ∧
    analyzeOutgoingCalls records = rankify (sortDescValue (outgoingCallEntries records)) ∧
    analyzeIncomingCalls records = rankify (sortDescValue (incomingCallEntries records)) ∧
    analyzeOutgoingSMS records = rankify (sortDescValue (outgoingSMSEntries records)) ∧
    analyzeIncomingSMS records = rankify (sortDescValue (incomingSMSEntries records)) ∧
    analyzeTopNumbers records ty = rankify ((sortDescValue (topEntries records ty)).take 200) := by
  refine ⟨?_, ?_, rfl, rfl, rfl, rfl, rfl⟩
  · intro s hs
    have hp : s.Pairwise entryDescLE := by
      rcases hs with h | h | h | h | h <;> subst h
      · exact sortDescValue_pairwise _
      · exact sortDescValue_pairwise _
      · exact sortDescValue_pairwise _
      · exact sortDescValue_pairwise _
      · exact List.Pairwise.sublist (List.take_sublist _ _) (sortDescValue_pairwise _)
    exact ⟨fun i j hij hj => rankified_sorted s hp i j hij hj,
      fun j hj => rankify_get_rank s j hj⟩
  · intro pre _ a b hv hsub
    exact sortDescValue_stable pre a b hv hsub

/-- C5 witness: on three outgoing calls (one to "A", two to "B") the ranked
output orders B before A with ranks 1 and 2, and on a tie the encounter
order A-then-B survives the sort. -/
theorem c5_witness :
    (0 : ℕ) < 1 ∧
    ((rankify (sortDescValue (outgoingCallEntries recsC5))).get ⟨1, by decide⟩).value ≤
      ((rankify (sortDescValue (outgoingCallEntries recsC5))).get ⟨0, by decide⟩).value ∧
    ((rankify (sortDescValue (outgoingCallEntries recsC5))).get ⟨1, by decide⟩).rank = 2 ∧
    entA.value = entB.value ∧ List.Sublist [entA, entB] (outgoingCallEntries recsTie) ∧
    List.Sublist [entA, entB] (sortDescValue (outgoingCallEntries recsTie)) ∧
    analyzeOutgoingCalls recsC5 = rankify (sortDescValue (outgoingCallEntries recsC5)) := by
  have h := c5_ranking_ordering recsC5 TopType.calls
  have h1 := (h.1 (sortDescValue (outgoingCallEntries recsC5)) (Or.inl rfl)).1 0 1
    (by decide) (by decide)
  have h2 := (h.1 (sortDescValue (outgoingCallEntries recsC5)) (Or.inl rfl)).2 1 (by decide)
  have h3 := (c5_ranking_ordering recsTie TopType.calls).2.1 (outgoingCallEntries recsTie)
    (Or.inl rfl) entA entB (by decide) (by decide)
  exact ⟨by decide, h1, h2, by decide, by decide, h3, h.2.2.1⟩

/-- C9: normalizer pass priority — normalization preserves the row count; an
original header found in the exact-name table always maps to that table's
canonical name (pattern inference can never override it); the pattern pass
runs exactly on first-row headers the exact pass left unmapped, over the
first ten rows' sample values; and a header matched by neither pass keeps its
original name. -/
theorem c9_normalizer_priority (detect : String → List (Option Cell) → Option String)
    (data : List RawRow) :
    (normalizeColumnNames detect data).length = data.length ∧
    (data ≠ [] → normalizeColumnNames detect data =
      data.map (fun row => row.map (fun kv => (renameKey detect data kv.1, kv.2)))) ∧
    (∀ (r0 : RawRow) (rest : List RawRow) (k c : String), data = r0 :: rest →
      (r0.map Prod.fst).contains k → exactMapping k = some c →
      columnTypesOf detect data k = some c) ∧
    (∀ (r0 : RawRow) (rest : List RawRow) (k : String), data = r0 :: rest →
      (r0.map Prod.fst).contains k → exactMapping k = none →
      columnTypesOf detect data k =
        detectTruthy (detect k ((data.take 10).map (fun row => row.lookup k)))) ∧
    (∀ k : String, columnTypesOf detect data k = none → renameKey detect data k = k) := by
  refine ⟨?_, ?_, ?_, ?_, ?_⟩
  · unfold normalizeColumnNames
    split
    · rfl
    · simp
  · intro hne
    unfold normalizeColumnNames
    rw [if_neg (by simpa using hne)]
  · intro r0 rest k c hdata hcont hexact
    subst hdata
    unfold columnTypesOf
    dsimp only
    rw [if_pos hcont, hexact]
  · intro r0 rest k hdata hcont hexact
    subst hdata
    unfold columnTypesOf
    dsimp only
    rw [if_pos hcont, hexact]
  · intro k hnone
    unfold renameKey
    rw [hnone]
    rfl

/-- C9 witness: on a one-row data set, the exactly-known header `"Aparty"`
maps to `"A-Party"` even though the detector would claim `"IMEI"` for it,
the unknown header `"Odd"` is resolved by the detector, and the rewritten
data keeps its one row. -/
theorem c9_witness :
    (["Aparty", "Odd"].contains "Aparty" ∧ exactMapping "Aparty" = some "A-Party") ∧
    columnTypesOf detect9 data9 "Aparty" = some "A-Party" ∧
    (exactMapping "Odd" = none ∧ detect9 "Odd" [some (Cell.str "v")] = some "B-Party") ∧
    columnTypesOf detect9 data9 "Odd" = some "B-Party" ∧
    (normalizeColumnNames detect9 data9).length = data9.length ∧
    normalizeColumnNames detect9 data9 =
      [[("A-Party", Cell.str "111"), ("B-Party", Cell.str "v")]] := by
  have h := c9_normalizer_priority detect9 data9
  refine ⟨⟨by decide, by decide⟩, ?_, ⟨by decide, by decide⟩, ?_, h.1.trans (by decide), by decide⟩
  · exact h.2.2.1 [("Aparty", Cell.str "111"), ("Odd", Cell.str "v")] [] "Aparty" "A-Party"
      rfl (by decide) (by decide)
  · have h4 := h.2.2.2.1 [("Aparty", Cell.str "111"), ("Odd", Cell.str "v")] [] "Odd"
      rfl (by decide) (by decide)
    rw [h4]
    decide

/-- C10: top-N SMS attribution is inverted relative to the record type — an
`sms_sent` record increments the counterpart's `smsReceived` tally (the
value ranked by the `sms_received` view) and an `sms_received` record
increments the counterpart's `smsSent` tally (ranked by the `sms_sent`
view); the counterpart is the called number when non-empty, else the
caller. -/
theorem c10_sms_attribution (records : List CDRRecord) (r : CDRRecord) (k : String)
    (hk : jsOrStr2 r.calledNumber r.callerNumber = k) (hne : k ≠ "") :
    (r.callType = "sms_sent" →
      (topNumbersStats (records ++ [r])).lookup k =
        some { ((topNumbersStats records).lookup k).getD topStatsInit with
               smsReceived :=
                 (((topNumbersStats records).lookup k).getD topStatsInit).smsReceived + 1 }) ∧
    (r.callType = "sms_received" →
      (topNumbersStats (records ++ [r])).lookup k =
        some { ((topNumbersStats records).lookup k).getD topStatsInit with
               smsSent :=
                 (((topNumbersStats records).lookup k).getD topStatsInit).smsSent + 1 }) ∧
    (∀ s : TopStats, topValue TopType.smsReceived s = s.smsReceived ∧
      topValue TopType.smsSent s = s.smsSent) ∧
    jsOrStr2 r.calledNumber r.callerNumber =
      (if r.calledNumber ≠ "" then r.calledNumber else r.callerNumber) := by
  have happ : topNumbersStats (records ++ [r]) = topNumbersStep (topNumbersStats records) r := by
    unfold topNumbersStats
    rw [List.foldl_append]
    rfl
  refine ⟨?_, ?_, fun s => ⟨rfl, rfl⟩, by simp [jsOrStr2]⟩
  · intro hty
    rw [happ]
    unfold topNumbersStep
    simp only [hk, hty]
    rw [if_neg hne]
    simp [mapBump_lookup]
  · intro hty
    rw [happ]
    unfold topNumbersStep
    simp only [hk, hty]
    rw [if_neg hne]
    simp [mapBump_lookup]

/-- C10 witness: a single sent SMS from "A" to "B" lands in B's
`smsReceived` tally, a single received SMS lands in B's `smsSent` tally. -/
theorem c10_witness :
    jsOrStr2 smsSentRec.calledNumber smsSentRec.callerNumber = "B" ∧ ("B" : String) ≠ "" ∧
    smsSentRec.callType = "sms_sent" ∧
    (topNumbersStats [smsSentRec]).lookup "B" = some { topStatsInit with smsReceived := 1 } ∧
    smsRecvRec.callType = "sms_received" ∧
    (topNumbersStats [smsRecvRec]).lookup "B" = some { topStatsInit with smsSent := 1 } := by
  have h1 := (c10_sms_attribution [] smsSentRec "B" rfl (by decide)).1 rfl
  have h2 := (c10_sms_attribution [] smsRecvRec "B" rfl (by decide)).2.1 rfl
  exact ⟨rfl, by decide, rfl, h1, rfl, h2⟩

/-- C8: empty-input neutrality — every analyzer returns an empty list on an
empty record list, the file statistics are zeroed (count 0, no distinct
numbers, a "0 Days" range, an empty daily breakdown), and the
specific-number profile is null whenever the target appears in no record as
caller or called party. -/
theorem c8_empty_neutral (records : List CDRRecord) (t : String) (p : ℚ) (ty : TopType) :
    analyzeOutgoingCalls [] = [] ∧ analyzeIncomingCalls [] = [] ∧
    analyzeOutgoingSMS [] = [] ∧ analyzeIncomingSMS [] = [] ∧
    analyzeTopNumbers [] ty = [] ∧ analyzeLocationPatterns [] = [] ∧
    analyzeDetailedLocationTimeline [] = [] ∧ analyzeMovementPatterns [] = [] ∧
    analyzeIMEIChanges [] = [] ∧ generateDailyBreakdown [] = [] ∧
    analyzeSpecificNumber [] t = none ∧
    generateFileStats [] p =
      { totalRecords := 0, uniqueNumbers := 0, dateRange := "0 Days",
        processingTime := toFixed1 (p / 1000) ++ "s", dailyBreakdown := [] } ∧
    ((∀ r ∈ records, r.callerNumber ≠ t ∧ r.calledNumber ≠ t) →
      analyzeSpecificNumber records t = none) := by
  refine ⟨rfl, rfl, rfl, rfl, rfl, rfl, rfl, rfl, rfl, rfl, rfl, rfl, ?_⟩
  intro h
  have hf : records.filter (fun r => r.callerNumber = t ∨ r.calledNumber = t) = [] := by
    rw [List.filter_eq_nil_iff]
    intro r hr
    rcases h r hr with ⟨h1, h2⟩
    simp [h1, h2]
  unfold analyzeSpecificNumber
  simp only [hf]
  rfl

/-- C8 witness: the general null case applied to one record that never
mentions the target number. -/
theorem c8_witness :
    (mkCallRec "1" "A").callerNumber ≠ "9" ∧ (mkCallRec "1" "A").calledNumber ≠ "9" ∧
    analyzeSpecificNumber [mkCallRec "1" "A"] "9" = none :=
  ⟨by decide, by decide,
    (c8_empty_neutral [mkCallRec "1" "A"] "9" 0 TopType.calls).2.2.2.2.2.2.2.2.2.2.2.2
      (by decide)⟩

/-- C6: analyzer determinism — every analysis function of this core is, in
this embedding, a function of the record list alone: unlike the parser none
of them consumes the `JsEnv` of nondeterministic inputs (`Date.now`,
`Math.random`, engine date parsing), and the in-place sorts of the source
act only on arrays built within each call, so running any analyzer twice on
the same list yields syntactically the same output and leaves the input
list untouched. -/
theorem c6_analyzer_determinism (records : List CDRRecord) (t : String) (p : ℚ)
    (ty : TopType) :
    (analyzeOutgoingCalls records, analyzeIncomingCalls records, analyzeOutgoingSMS records,
      analyzeIncomingSMS records, analyzeTopNumbers records ty,
      analyzeLocationPatterns records, analyzeDetailedLocationTimeline records,
      analyzeMovementPatterns records, analyzeIMEIChanges records,
      analyzeSpecificNumber records t, generateDailyBreakdown records,
      generateFileStats records p) =
    (analyzeOutgoingCalls records, analyzeIncomingCalls records, analyzeOutgoingSMS records,
      analyzeIncomingSMS records, analyzeTopNumbers records ty,
      analyzeLocationPatterns records, analyzeDetailedLocationTimeline records,
      analyzeMovementPatterns records, analyzeIMEIChanges records,
      analyzeSpecificNumber records t, generateDailyBreakdown records,
      generateFileStats records p) := rfl
